import Mathlib

/-!
Verification development for the web-agent SDK core
(`BrowserNavigationAgent`, `DOMDistiller`, the Playwright DOM bridge,
`ChangeObserver`, `ActionExecutor`).

The TypeScript sources are shallowly embedded: pure functions become Lean
functions; the stateful subtask loop becomes explicit state passing over a
fuel-indexed recursion; external collaborators (the LLM, the browser
backend, the mutation observer's event source) become explicit environment
records of streams; fallible calls return `Except`/`Option`.
-/

namespace WebAgent

/-! ## JavaScript-style string helpers

`strContains s pat` models `s.includes(pat)` (empty pattern matches).
`jsTruthyS` models JS truthiness of an optional string (absent or `""` is
falsy).  `jsOrS a b` models `a || b` on strings, `jsOrO` on an optional
string with a default. -/

def listHasPre : List Char → List Char → Bool
  | [], _ => true
  | _ :: _, [] => false
  | a :: as, b :: bs => a == b && listHasPre as bs

def listContainsSub (sub : List Char) : List Char → Bool
  | [] => listHasPre sub []
  | c :: rest => listHasPre sub (c :: rest) || listContainsSub sub rest

def strContains (s pat : String) : Bool :=
  listContainsSub pat.data s.data

/-- `s.slice(0, n)` (structurally recursive so that concrete witnesses
evaluate by `decide`). -/
def strTake (s : String) (n : Nat) : String :=
  ⟨s.data.take n⟩

/-- `s.toLowerCase()` (structurally recursive). -/
def jsToLower (s : String) : String :=
  ⟨s.data.map Char.toLower⟩

def jsTruthyS : Option String → Bool
  | none => false
  | some s => s != ""

def jsOrS (a b : String) : String :=
  if a == "" then b else a

def jsOrO : Option String → String → String
  | none, d => d
  | some s, d => if s == "" then d else s

/-! ## Data shapes consumed by the subtask loop

`LoopDom` is the part of a `DistilledDOM` the loop itself reads: the URL
and, for the state fingerprint, the per-element `tag` and `text`/`content`
fields (`'text' in e ? e.text : 'content' in e ? e.content : ''`).
Wall-clock fields (`startTime`, `endTime`, `durationMs`) and token
accounting are outside the model. -/

structure FPElem where
  tag : String
  text : String
deriving DecidableEq, Repr

structure LoopDom where
  url : String
  elements : List FPElem
deriving DecidableEq, Repr

/-- The state fingerprint from `executeSubTask`:
`url + '::' + elements.slice(0,10).map(e => tag + ':' + text.slice(0,20)).join('|')`. -/
def computeStateHash (dom : LoopDom) : String :=
  dom.url ++ "::" ++
    String.intercalate "|"
      ((dom.elements.take 10).map (fun e => e.tag ++ ":" ++ strTake e.text 20))

structure ActionDecision where
  action : String
  /-- The loop only ever compares and records `JSON.stringify(params)`;
  the serialized form stands for the params object. -/
  paramsJson : String
  failReason : Option String := none
  reasoning : Option String := none
deriving DecidableEq, Repr

structure DOMChange where
  type : String
  target : String
  description : String
deriving DecidableEq, Repr

structure ChangeReport where
  mutations : List DOMChange
  verbalFeedback : String
  urlChanged : Bool
  newUrl : Option String
  titleChanged : Bool
  newTitle : Option String
deriving DecidableEq, Repr

/-- An `ActionResult` as produced by the executor and enriched by the loop
(`mutations` and `verbalFeedback` get overwritten from the change report). -/
structure ActionResultM where
  success : Bool
  action : String
  paramsJson : String
  errMessage : Option String := none
  verbalFeedback : String
  mutations : List DOMChange := []
deriving DecidableEq, Repr

structure ActionAttempt where
  action : String
  paramsJson : String
  success : Bool
  feedback : String
deriving DecidableEq, Repr

structure SubTask where
  id : String
  description : String
  action : String
  target : Option String := none
  value : Option String := none
  verification : Option String := none
deriving DecidableEq, Repr

structure SubTaskError where
  code : String
  message : String
  step : Nat
  lastAction : Option ActionResultM := none
deriving DecidableEq, Repr

structure SubTaskResult where
  subtaskId : String
  success : Bool
  steps : List ActionResultM
  error : Option SubTaskError := none
  retryCount : Nat
deriving DecidableEq, Repr

/-- `createResult` without the wall-clock and token fields. -/
def createResult (subtaskId : String) (success : Bool) (steps : List ActionResultM)
    (retryCount : Nat) (error : Option SubTaskError) : SubTaskResult :=
  { subtaskId := subtaskId, success := success, steps := steps,
    error := error, retryCount := retryCount }

/-! ## Pure helpers of `BrowserNavigationAgent` -/

def navKeywords : List String :=
  ["submit", "login", "signin", "sign in", "log in", "signup", "register",
   "checkout", "proceed", "continue", "next", "confirm", "go to"]

/-- `isNavigationRelatedAction`. -/
def isNavigationRelatedAction (subtask : SubTask) (actionType : String) : Bool :=
  let description := jsToLower subtask.description
  let action := jsToLower subtask.action
  if navKeywords.any (fun kw => strContains description kw || strContains action kw) then
    true
  else if actionType == "click" &&
      (strContains description "button" || strContains description "form") then
    true
  else if actionType == "navigate" then
    true
  else
    false

/-- `isDuplicateAction`: the proposed decision matches (action + stringified
params) one of the last 3 attempts. -/
def isDuplicateAction (decision : ActionDecision) (history : List ActionAttempt) : Bool :=
  if history.isEmpty then false
  else
    (history.drop (history.length - 3)).any
      (fun attempt => attempt.action == decision.action &&
        attempt.paramsJson == decision.paramsJson)

def completionPhrases : List String :=
  ["success", "added", "submitted", "logged in", "complete", "done"]

/-- `checkCompletion`: heuristic completion probe on the last step's verbal
feedback, then the verification-hint/URL check (`dom.url.includes(subtask.value || '')`,
where an empty needle always matches). -/
def checkCompletion (subtask : SubTask) (dom : LoopDom) (steps : List ActionResultM) : Bool :=
  match steps.getLast? with
  | none => false
  | some lastStep =>
    let feedback := jsToLower lastStep.verbalFeedback
    if completionPhrases.any (fun p => strContains feedback p) then
      true
    else if jsTruthyS subtask.verification then
      let verification := jsToLower (subtask.verification.getD "")
      if strContains verification "url" && strContains dom.url (subtask.value.getD "") then
        true
      else
        false
    else
      false

/-- The history note pushed when a `done` claim fails verification. -/
def verificationFailedNote : ActionAttempt :=
  { action := "wait", paramsJson := "\x7b\x7d", success := false,
    feedback := "VERIFICATION FAILED: You claimed the subtask is done but it is NOT verified. Check the page state carefully and either complete the subtask or report failure." }

/-! ## The subtask loop environment

External collaborators, indexed by the loop iteration:
* `preDom i`   — the distillation observed at the top of iteration `i`;
* `decision i` — the value of `decideAction` at iteration `i`.  `Except.error`
  models `llm.complete` rejecting, which in the source happens *outside* the
  `try { JSON.parse … }` of `decideAction` and therefore propagates to the
  outer catch of `executeSubTask` (the parse-failure fallback to `wait` is
  already folded into an `ok` value; see `decideActionFromResponse`);
* `verify i`   — the outcome of the LLM-backed `verifySubtaskCompletion`
  when consulted at iteration `i` (that method catches its own errors and
  returns false, so it is total);
* `execResult i` — the executor's `ActionResult` (total; `ActionExecutor.execute`
  catches everything, see `ActionExecutor.execute` below);
* `changes i`  — the observer's report for the action window;
* `postDom i`  — the post-action distillation, `none` when it threw
  (the source ignores that failure). -/

structure LoopEnv where
  precheckVerified : Bool
  preDom : Nat → LoopDom
  decision : Nat → Except String ActionDecision
  verify : Nat → Bool
  execResult : Nat → ActionResultM
  changes : Nat → ChangeReport
  postDom : Nat → Option LoopDom

structure LoopState where
  steps : List ActionResultM
  actionHistory : List ActionAttempt
  retryCount : Nat
  consecutiveFailures : Nat
  sameStateCount : Nat
  lastStateHash : String
deriving Repr

/-- The stagnation counter after the fingerprint comparison at the top of an
iteration (`sameStateCount++` vs reset to 0). -/
def updatedSame (st : LoopState) (step : Nat) (h : String) : Nat :=
  if h == st.lastStateHash && decide (0 < step) then st.sameStateCount + 1 else 0

/-- The `lastStateHash` variable after the fingerprint comparison. -/
def updatedLast (st : LoopState) (step : Nat) (h : String) : String :=
  if h == st.lastStateHash && decide (0 < step) then st.lastStateHash else h

/-- `preActionUrl !== postActionUrl`, false when the post-action distill threw. -/
def pageChangedFlag (postDom : Option LoopDom) (preActionUrl : String) : Bool :=
  match postDom with
  | some pd => preActionUrl != pd.url
  | none => false

/-- The enriched `ActionResult` pushed onto `steps` at iteration `step`:
the executor result with `mutations` and `verbalFeedback` folded in from
the change report. -/
def enrichedAt (env : LoopEnv) (step : Nat) : ActionResultM :=
  { env.execResult step with
    mutations := (env.changes step).mutations,
    verbalFeedback := jsOrS (env.changes step).verbalFeedback
      (env.execResult step).verbalFeedback }

/-- The `ActionAttempt` recorded in the action history at iteration `step`. -/
def attemptAt (env : LoopEnv) (step : Nat) (decision : ActionDecision) : ActionAttempt :=
  { action := decision.action, paramsJson := decision.paramsJson,
    success := (env.execResult step).success,
    feedback := (env.execResult step).verbalFeedback }

/-- One iteration of the `for (let step = 0; …)` loop of `executeSubTask`.
`cont` is the continuation for the next iteration (the recursive call of
`runFrom`); every `return` of the source becomes a direct result. -/
def stepIter (env : LoopEnv) (subtask : SubTask) (step : Nat) (st : LoopState)
    (cont : LoopState → SubTaskResult) : SubTaskResult :=
  let dom := env.preDom step
  let currentStateHash := computeStateHash dom
  let same1 := updatedSame st step currentStateHash
  let last1 := updatedLast st step currentStateHash
  if 4 ≤ same1 then
    createResult subtask.id false st.steps st.retryCount
      (some { code := "NO_PROGRESS",
              message := "No progress after " ++ toString same1 ++ " consecutive steps. The subtask may be impossible or the approach is wrong.",
              step := st.steps.length })
  else
    match env.decision step with
    | .error errorMessage =>
        -- `llm.complete` rejected inside `decideAction`; caught by the
        -- outer try of `executeSubTask`.
        createResult subtask.id false st.steps st.retryCount
          (some { code := "ACTION_FAILED", message := errorMessage,
                  step := st.steps.length })
    | .ok decision =>
      if decision.action == "done" then
        if env.verify step then
          createResult subtask.id true st.steps st.retryCount none
        else
          cont { st with
                 actionHistory := st.actionHistory ++ [verificationFailedNote],
                 sameStateCount := same1 + 1,
                 lastStateHash := last1 }
      else if decision.action == "fail" then
        createResult subtask.id false st.steps st.retryCount
          (some { code := "MODEL_REPORTED_FAILURE",
                  message := jsOrO decision.failReason
                    (jsOrO decision.reasoning "Model determined subtask is not achievable"),
                  step := st.steps.length })
      else
        let isDup := isDuplicateAction decision st.actionHistory
        let same2 := if isDup then same1 + 1 else same1
        let preActionUrl := dom.url
        let result := env.execResult step
        let pageChanged := pageChangedFlag (env.postDom step) preActionUrl
        if pageChanged && isNavigationRelatedAction subtask decision.action then
          -- page transition after a navigation-related action: immediate success,
          -- before the result is pushed and before any completion check
          createResult subtask.id true st.steps st.retryCount none
        else
          let same3 := if pageChanged then 0 else same2
          let last2 := if pageChanged then "" else last1
          let enriched := enrichedAt env step
          let steps1 := st.steps ++ [enriched]
          let history1 := st.actionHistory ++ [attemptAt env step decision]
          if !result.success then
            let retry1 := st.retryCount + 1
            let cf1 := st.consecutiveFailures + 1
            if 3 ≤ cf1 then
              createResult subtask.id false steps1 retry1
                (some { code := "CONSECUTIVE_FAILURES",
                        message := toString cf1 ++ " consecutive action failures. Last error: " ++ jsOrO result.errMessage "unknown",
                        step := step,
                        lastAction := some enriched })
            else if checkCompletion subtask dom steps1 then
              createResult subtask.id true steps1 retry1 none
            else
              cont { steps := steps1, actionHistory := history1,
                     retryCount := retry1, consecutiveFailures := cf1,
                     sameStateCount := same3, lastStateHash := last2 }
          else if checkCompletion subtask dom steps1 then
            createResult subtask.id true steps1 st.retryCount none
          else
            cont { steps := steps1, actionHistory := history1,
                   retryCount := st.retryCount, consecutiveFailures := 0,
                   sameStateCount := same3, lastStateHash := last2 }

/-- The loop of `executeSubTask`, recursing on the remaining step budget.
`step` is the loop counter; running out of fuel is the
`MAX_STEPS_EXCEEDED` exit after the `for` loop. -/
def runFrom (env : LoopEnv) (subtask : SubTask) (maxSteps : Nat) :
    Nat → Nat → LoopState → SubTaskResult
  | 0, _, st =>
      createResult subtask.id false st.steps st.retryCount
        (some { code := "MAX_STEPS_EXCEEDED",
                message := "Exceeded max steps (" ++ toString maxSteps ++ ")",
                step := st.steps.length })
  | fuel + 1, step, st =>
      stepIter env subtask step st (runFrom env subtask maxSteps fuel (step + 1))

def initialLoopState : LoopState :=
  { steps := [], actionHistory := [], retryCount := 0,
    consecutiveFailures := 0, sameStateCount := 0, lastStateHash := "" }

/-- `executeSubTask`: precheck (completion verified before the first
decision succeeds with zero steps), then the bounded loop. -/
def executeSubTask (env : LoopEnv) (subtask : SubTask) (maxSteps : Nat) : SubTaskResult :=
  if env.precheckVerified then
    createResult subtask.id true [] 0 none
  else
    runFrom env subtask maxSteps maxSteps 0 initialLoopState

/-! ## `decideAction`'s parse boundary

`decideAction` sends the prompt, then parses the response:
`try { return JSON.parse(extractJSON(response.content)) } catch { return wait }`.
The `llm.complete` call sits *outside* that try; `parseFn` stands for
`s => JSON.parse(extractJSON(s))`, returning `none` where JSON.parse throws. -/

def waitFallbackDecision : ActionDecision :=
  { action := "wait", paramsJson := "\x7b\"duration\":1000\x7d" }

def decideActionFromResponse (llmResult : Except String String)
    (parseFn : String → Option ActionDecision) : Except String ActionDecision :=
  match llmResult with
  | .error e => .error e
  | .ok content =>
    match parseFn content with
    | some decision => .ok decision
    | none => .ok waitFallbackDecision

/-! ## DOM model

A structural document for the distillers.  `ElemData` carries the static
markup (tag, attributes) together with the rendering facts the source reads
from live-DOM APIs: `styleHidden` is `getComputedStyle` yielding
`display:none` / `visibility:hidden` / `opacity:'0'`; `rect` is
`getBoundingClientRect()`; `covered` is the outcome of the
`document.elementFromPoint` occlusion test of `isInteractable`; `isHTML`
models `instanceof HTMLElement` (false for SVG etc.); `val` is the current
`value` property (distinct from the `value` attribute); `options` are a
select's options.  Elements are addressed by their child-index path from
the body. -/

structure Rect where
  x : Int
  y : Int
  width : Int
  height : Int
deriving DecidableEq, Repr

structure SelOption where
  value : String
  text : String
  selected : Bool
deriving DecidableEq, Repr

structure ElemData where
  tag : String
  attrs : List (String × String) := []
  isHTML : Bool := true
  styleHidden : Bool := false
  rect : Rect := ⟨0, 0, 0, 0⟩
  covered : Bool := false
  val : String := ""
  options : List SelOption := []
deriving DecidableEq, Repr

inductive DomNode where
  | elem (data : ElemData) (children : List DomNode)
  | text (s : String)

/-- The document: the body element plus the document-level facts the
distillers read (`location.href`, `document.title`, the window size used
by the viewport check).  Content above `body` (head etc.) is not modelled;
it is excluded from extraction by `EXCLUDED_TAGS` anyway. -/
structure Doc where
  url : String := ""
  title : String := ""
  body : DomNode
  innerWidth : Int := 1280
  innerHeight : Int := 720

def getAttr (d : ElemData) (name : String) : Option String :=
  (d.attrs.find? (fun a => a.1 == name)).map (fun a => a.2)

def hasAttr (d : ElemData) (name : String) : Bool :=
  (getAttr d name).isSome

def DomNode.dataOf : DomNode → Option ElemData
  | .elem d _ => some d
  | .text _ => none

def DomNode.childrenOf : DomNode → List DomNode
  | .elem _ cs => cs
  | .text _ => []

mutual

/-- `textContent`: concatenation of descendant text nodes in document order. -/
def DomNode.textContent : DomNode → String
  | .text s => s
  | .elem _ cs => textContentList cs

def textContentList : List DomNode → String
  | [] => ""
  | n :: rest => n.textContent ++ textContentList rest

end

def getNode? : DomNode → List Nat → Option DomNode
  | n, [] => some n
  | n, i :: rest =>
    match n.childrenOf.get? i with
    | some c => getNode? c rest
    | none => none

mutual

/-- Paths of all elements of a subtree in document (preorder) order,
including the subtree root itself (`[]`). -/
def elemPaths : DomNode → List (List Nat)
  | .text _ => []
  | .elem _ cs => [] :: elemPathsList 0 cs

def elemPathsList : Nat → List DomNode → List (List Nat)
  | _, [] => []
  | i, c :: rest => (elemPaths c).map (fun p => i :: p) ++ elemPathsList (i + 1) rest

end

def elemAt? (doc : Doc) (p : List Nat) : Option ElemData :=
  (getNode? doc.body p).bind DomNode.dataOf

/-- The element itself followed by its proper ancestors, nearest first,
excluding the body (`[]`) — the chain walked by `isInsideExcluded`,
`closest`, the selector path builder. -/
def selfAndAncestorPaths (p : List Nat) : List (List Nat) :=
  ((List.range p.length).reverse).map (fun k => p.take (k + 1))

/-- `element.querySelectorAll` candidates: strict descendants of the node
at `r`, in document order, as body-relative paths. -/
def descendantsOf (doc : Doc) (r : List Nat) : List (List Nat) :=
  match getNode? doc.body r with
  | some n => ((elemPaths n).drop 1).map (fun p => r ++ p)
  | none => []

/-- `document.querySelectorAll` candidates: every element of the document
(the body subtree), in document order. -/
def docElemPaths (doc : Doc) : List (List Nat) :=
  elemPaths doc.body

/-! ## Text normalization and truncation -/

/-- ASCII whitespace for the `\s` regex class (Unicode spaces not modelled). -/
def isWsChar (c : Char) : Bool :=
  c == ' ' || c == '\t' || c == '\n' || c == '\r' || c == '\x0b' || c == '\x0c'

/-- `replace(/\s+/g, ' ')`: a run of whitespace becomes a single space.
`prevWs` tracks whether the previous character was part of a run. -/
def collapseWsAux : Bool → List Char → List Char
  | _, [] => []
  | prevWs, c :: rest =>
    if isWsChar c then
      if prevWs then collapseWsAux true rest
      else ' ' :: collapseWsAux true rest
    else c :: collapseWsAux false rest

def collapseWs (l : List Char) : List Char :=
  collapseWsAux false l

/-- `.trim()` (on an already collapsed character list). -/
def trimChars (l : List Char) : List Char :=
  ((l.dropWhile isWsChar).reverse.dropWhile isWsChar).reverse

/-- `normalizeWhitespace`: `text.replace(/\s+/g, ' ').trim()`. -/
def normalizeWhitespace (s : String) : String :=
  ⟨trimChars (collapseWs s.data)⟩

/-- Index of the last space in a character list (`lastIndexOf(' ')`),
`none` for `-1`. -/
def lastSpaceIdx (l : List Char) : Option Nat :=
  ((l.enum.filter (fun x => x.2 == ' ')).map (fun x => x.1)).getLast?

/-- `truncateText`: word-boundary truncation with ellipsis.  The JS
comparison `lastSpace > maxLength * 0.7` is `10 * i > 7 * maxLength`
exactly. -/
def truncateText (s : String) (maxLength : Nat := 200) : String :=
  if s.length ≤ maxLength then s
  else
    let truncated := s.data.take maxLength
    match lastSpaceIdx truncated with
    | some i =>
      if 10 * i > 7 * maxLength then ⟨truncated.take i⟩ ++ "..."
      else ⟨truncated⟩ ++ "..."
    | none => ⟨truncated⟩ ++ "..."

/-- The Playwright bridge's simpler `truncate` (no word boundary). -/
def ptwTruncate (t : String) (max : Nat := 200) : String :=
  if t.length ≤ max then t else ⟨t.data.take max⟩ ++ "..."

/-- `estimateTokens`: `Math.ceil(text.length * 0.25)`. -/
def estimateTokens (text : String) : Nat :=
  (text.length + 3) / 4

/-! ## Distiller constants (`DOMDistiller.ts`) -/

def excludedTags : List String :=
  ["script", "style", "noscript", "svg", "path", "defs", "clippath",
   "lineargradient", "radialgradient", "stop", "mask", "filter",
   "fegaussianblur", "feoffset", "feblend", "fecolormatrix",
   "template", "slot", "iframe", "object", "embed", "applet",
   "head", "meta", "link", "base", "title"]

/-- `TEXT_CONTENT_TAGS`, in JS `Set` insertion order (iteration order). -/
def textContentTags : List String :=
  ["p", "h1", "h2", "h3", "h4", "h5", "h6",
   "article", "section", "main", "blockquote",
   "li", "td", "th", "caption", "figcaption",
   "label", "legend", "summary", "dt", "dd"]

def interactiveRoles : List String :=
  ["button", "link", "checkbox", "radio", "textbox", "combobox",
   "listbox", "option", "menuitem", "menuitemcheckbox", "menuitemradio",
   "tab", "tabpanel", "switch", "searchbox", "spinbutton", "slider",
   "scrollbar", "progressbar", "tree", "treeitem", "grid", "gridcell"]

/-- `LANDMARK_ROLES`, in `Set` insertion order. -/
def landmarkRoles : List String :=
  ["banner", "complementary", "contentinfo", "form", "main",
   "navigation", "region", "search"]

/-- The `type` IDL property of an `HTMLInputElement`: the attribute,
lowercased, restricted to the known input types, defaulting to "text". -/
def knownInputTypes : List String :=
  ["text", "password", "checkbox", "radio", "submit", "button", "reset",
   "hidden", "email", "number", "search", "tel", "url", "date",
   "datetime-local", "month", "week", "time", "color", "file", "range", "image"]

def htmlInputType (d : ElemData) : String :=
  let t := jsToLower ((getAttr d "type").getD "")
  if knownInputTypes.contains t then t else "text"

/-- `instanceof HTMLInputElement` etc. -/
def isInputEl (d : ElemData) : Bool := d.isHTML && d.tag == "input"
def isTextareaEl (d : ElemData) : Bool := d.isHTML && d.tag == "textarea"
def isSelectEl (d : ElemData) : Bool := d.isHTML && d.tag == "select"

/-! ## Visibility and exclusion predicates -/

/-- `isVisible` (DOMDistiller): computed style, `hidden` attribute,
non-zero box, viewport bounds with a 100px buffer. -/
def isVisible (doc : Doc) (d : ElemData) : Bool :=
  d.isHTML &&
  !(d.styleHidden || hasAttr d "hidden") &&
  !(d.rect.width == 0 && d.rect.height == 0) &&
  (d.rect.y < doc.innerHeight + 100 && d.rect.y + d.rect.height > -100 &&
   d.rect.x < doc.innerWidth + 100 && d.rect.x + d.rect.width > -100)

/-- `isInteractable`: visible, not disabled/aria-disabled, not occluded. -/
def isInteractable (doc : Doc) (d : ElemData) : Bool :=
  d.isHTML && isVisible doc d &&
  !(hasAttr d "disabled" || getAttr d "aria-disabled" == some "true") &&
  !d.covered

/-- The Playwright bridge's `isVisible`: style, `hidden` attribute, and a
strictly positive box (no viewport check). -/
def ptwIsVisible (d : ElemData) : Bool :=
  d.isHTML && !d.styleHidden && !(hasAttr d "hidden") &&
  (d.rect.width > 0 && d.rect.height > 0)

def nodeExcludedMark (d : ElemData) : Bool :=
  excludedTags.contains d.tag ||
  (d.isHTML && (hasAttr d "hidden" || getAttr d "aria-hidden" == some "true"))

/-- `isInsideExcluded`: walk from the element up to (but excluding) the
body, checking excluded tags and hidden/aria-hidden. -/
def isInsideExcluded (doc : Doc) (p : List Nat) : Bool :=
  (selfAndAncestorPaths p).any
    (fun q => ((elemAt? doc q).map nodeExcludedMark).getD false)

/-- `closest(pred)`: nearest ancestor-or-self matching, as a path
(stopping below the body, which `closest` would also inspect only via
`document.body`'s own data; the body is not a label/form in practice). -/
def closestPath (doc : Doc) (p : List Nat) (pred : ElemData → Bool) : Option (List Nat) :=
  (selfAndAncestorPaths p).find?
    (fun q => ((elemAt? doc q).map pred).getD false)

/-- `getBoundingBox`: `undefined` for a zero-by-zero rect. -/
def getBoundingBox (d : ElemData) : Option Rect :=
  if d.rect.width == 0 && d.rect.height == 0 then none else some d.rect

/-! ## TEXT_ONLY distillation (`DOMDistiller.distillTextOnly`) -/

structure TextElement where
  type : String := "text"
  content : String
  tag : String
  index : Nat
deriving DecidableEq, Repr

structure TextOnlyDOM where
  mode : String := "text_only"
  url : String
  title : String
  content : List TextElement
  tokenCount : Nat
deriving DecidableEq, Repr

def matchesMainContent (d : ElemData) : Bool :=
  d.tag == "main" || d.tag == "article" || getAttr d "role" == some "main"

/-- `document.querySelector('main, article, [role="main"]')`. -/
def mainContentPath (doc : Doc) : Option (List Nat) :=
  (docElemPaths doc).find?
    (fun p => ((elemAt? doc p).map matchesMainContent).getD false)

/-- `rootElement.querySelectorAll(tag)`. -/
def tagQuery (doc : Doc) (r : List Nat) (tag : String) : List (List Nat) :=
  (descendantsOf doc r).filter
    (fun p => ((elemAt? doc p).map (fun d => d.tag == tag)).getD false)

structure TextAcc where
  content : List TextElement
  seen : List String
  nextIndex : Nat

/-- One element of the `elements.forEach` body of `distillTextOnly`.
Note: the `if (content.length >= MAX_ELEMENTS[TEXT_ONLY]) return` at the
end of the source callback is dead code (a `return` inside `forEach` only
ends the current callback), so no cap is applied here. -/
def textOnlyVisit (doc : Doc) (acc : TextAcc) (p : List Nat) : TextAcc :=
  if isInsideExcluded doc p then acc
  else
    match getNode? doc.body p with
    | none => acc
    | some n =>
      match n.dataOf with
      | none => acc
      | some d =>
        let text := normalizeWhitespace n.textContent
        if text == "" || text.length < 5 || acc.seen.contains text then acc
        else
          { content := acc.content ++
              [{ content := truncateText text, tag := d.tag, index := acc.nextIndex }],
            seen := acc.seen ++ [text],
            nextIndex := acc.nextIndex + 1 }

/-- The per-tag pass of the `TEXT_CONTENT_TAGS.forEach` loop. -/
def textOnlyTagStep (doc : Doc) (r : List Nat) (acc : TextAcc) (tag : String) : TextAcc :=
  (tagQuery doc r tag).foldl (textOnlyVisit doc) acc

def distillTextOnly (doc : Doc) : TextOnlyDOM :=
  let r := (mainContentPath doc).getD []
  let acc := textContentTags.foldl (textOnlyTagStep doc r) ⟨[], [], 0⟩
  { url := doc.url, title := doc.title, content := acc.content,
    tokenCount := estimateTokens (reprStr acc.content) }

/-! ## TEXT_ONLY distillation, Playwright bridge (`distillFromPlaywright`)

Differences from the class version: queries the whole document per tag, no
main-landmark scoping, no excluded-ancestry check, the plain `truncate`,
and — crucially — a working element cap (`break` at `max`, 500 for
`text_only`).  `JSON.stringify` for the advisory token count is modelled by
the `Repr` serialization. -/

/-- `document.querySelectorAll(tag)` over the whole document. -/
def docTagQuery (doc : Doc) (tag : String) : List (List Nat) :=
  (docElemPaths doc).filter
    (fun p => ((elemAt? doc p).map (fun d => d.tag == tag)).getD false)

/-- Inner `for (const el of nodes)` loop with its `break` on reaching `max`. -/
def ptwTextInner (doc : Doc) (max : Nat) (tag : String) :
    List (List Nat) → TextAcc → TextAcc
  | [], acc => acc
  | p :: rest, acc =>
    match getNode? doc.body p with
    | none => ptwTextInner doc max tag rest acc
    | some n =>
      let text := normalizeWhitespace n.textContent
      if text == "" || text.length < 5 || acc.seen.contains text then
        ptwTextInner doc max tag rest acc
      else
        let acc1 : TextAcc :=
          { content := acc.content ++
              [{ content := ptwTruncate text, tag := tag, index := acc.nextIndex }],
            seen := acc.seen ++ [text],
            nextIndex := acc.nextIndex + 1 }
        if max ≤ acc1.content.length then acc1
        else ptwTextInner doc max tag rest acc1

/-- Outer `for (const tag of tags)` loop with its `break` on reaching `max`. -/
def ptwTextRun (doc : Doc) (max : Nat) : List String → TextAcc → TextAcc
  | [], acc => acc
  | tag :: tags, acc =>
    let acc1 := ptwTextInner doc max tag (docTagQuery doc tag) acc
    if max ≤ acc1.content.length then acc1
    else ptwTextRun doc max tags acc1

def ptwDistillTextOnly (doc : Doc) : TextOnlyDOM :=
  let acc := ptwTextRun doc 500 textContentTags ⟨[], [], 0⟩
  { url := doc.url, title := doc.title, content := acc.content,
    tokenCount := estimateTokens (reprStr acc.content) }

/-! ## The 600-paragraph scenario document (C1)

`docParas n` is a body with `n` paragraph children, each carrying a
distinct text of length `5 + i` (distinct by length, no whitespace,
length ≥ 5 so nothing is skipped). -/

def paraText (i : Nat) : String :=
  ⟨List.replicate 5 'p' ++ List.replicate i 'q'⟩

def paraNode (i : Nat) : DomNode :=
  .elem { tag := "p" } [.text (paraText i)]

def docParas (n : Nat) : Doc :=
  { url := "https://example.com/doc", title := "Doc",
    body := .elem { tag := "body" } ((List.range n).map paraNode) }

/-- The text entries `distillTextOnly` produces for paragraphs `js`,
starting at index `idx0`. -/
def expectedEntries (idx0 : Nat) : List Nat → List TextElement
  | [] => []
  | j :: rest =>
    { content := truncateText (paraText j), tag := "p", index := idx0 } ::
      expectedEntries (idx0 + 1) rest

/-- The entries the Playwright bridge produces (its simpler `truncate`). -/
def ptwExpectedEntries (idx0 : Nat) : List Nat → List TextElement
  | [] => []
  | j :: rest =>
    { content := ptwTruncate (paraText j), tag := "p", index := idx0 } ::
      ptwExpectedEntries (idx0 + 1) rest

/-! ## Shared element helpers for the interactive distillation modes

`CSS.escape` is modelled as the identity (identifiers in the model are
plain), `element.innerText` as `textContent` (rendering-aware text is not
modelled), and the `try/catch` around the class-uniqueness
`querySelectorAll` never fires after escaping.  `generateXPath` climbs
through `body` and `html`, contributing the constant `/html/body` prefix. -/

/-- Default element data for total path lookups (`elemD`); unreachable for
paths produced by the query helpers. -/
def dfltElem : ElemData := { tag := "" }

def elemD (doc : Doc) (p : List Nat) : ElemData :=
  (elemAt? doc p).getD dfltElem

def elTextContent (doc : Doc) (p : List Nat) : String :=
  ((getNode? doc.body p).map DomNode.textContent).getD ""

/-- The spread `...(x ? \x7bx\x7d : \x7b\x7d)` on a nullable string. -/
def jsOptTruthy : Option String → Option String
  | none => none
  | some s => if s == "" then none else some s

/-- `classList`: the `class` attribute split on whitespace runs. -/
def wsTokensAux : List Char → List Char → List String
  | [], cur => if cur.isEmpty then [] else [⟨cur.reverse⟩]
  | c :: rest, cur =>
    if isWsChar c then
      if cur.isEmpty then wsTokensAux rest []
      else ⟨cur.reverse⟩ :: wsTokensAux rest []
    else wsTokensAux rest (c :: cur)

def wsTokens (s : String) : List String := wsTokensAux s.data []

def joinSep (sep : String) : List String → String
  | [] => ""
  | [s] => s
  | s :: rest => s ++ sep ++ joinSep sep rest

/-- Element children of a node list, paired with their child indices
(`parent.children` skips text nodes but indices address all children). -/
def elemChildrenIdx : Nat → List DomNode → List (Nat × ElemData)
  | _, [] => []
  | i, .elem d _ :: rest => (i, d) :: elemChildrenIdx (i + 1) rest
  | i, .text _ :: rest => elemChildrenIdx (i + 1) rest

/-- `parent.children` (with child indices) of the element at `p`. -/
def parentChildren (doc : Doc) (p : List Nat) : List (Nat × ElemData) :=
  match getNode? doc.body p.dropLast with
  | some n => elemChildrenIdx 0 n.childrenOf
  | none => []

def lastIdx (p : List Nat) : Nat := p.getLastD 0

def getElementById (doc : Doc) (i : String) : Option (List Nat) :=
  (docElemPaths doc).find? (fun q => getAttr (elemD doc q) "id" == some i)

/-- `document.querySelector('label[for="<id>"]')`. -/
def labelForPath (doc : Doc) (i : String) : Option (List Nat) :=
  (docElemPaths doc).find?
    (fun q => (elemD doc q).tag == "label" && getAttr (elemD doc q) "for" == some i)

/-- Is the class selector `.c1.c2...` unique in the document? -/
def classUnique (doc : Doc) (cls : List String) : Bool :=
  ((docElemPaths doc).filter
    (fun q => cls.all (fun c =>
      (wsTokens ((getAttr (elemD doc q) "class").getD "")).contains c))).length == 1

/-- One `tag[:nth-of-type(k)]` segment of `generateSelector`'s path
builder (`k` counted among same-tag element siblings, 1-based). -/
def selSeg (doc : Doc) (q : List Nat) : String :=
  let d := elemD doc q
  let sibs := (parentChildren doc q).filter (fun x => x.2.tag == d.tag)
  if 1 < sibs.length then
    d.tag ++ ":nth-of-type(" ++ toString (sibs.findIdx (fun x => x.1 == lastIdx q) + 1) ++ ")"
  else d.tag

/-- The `while (current !== document.body)` climb of `generateSelector`:
top-down segments for the ancestors-or-self of depth `1..k`, cut at the
deepest ancestor with an `id` (the `break`). -/
def selClimb (doc : Doc) (p : List Nat) : Nat → List String
  | 0 => []
  | k + 1 =>
    let q := p.take (k + 1)
    let d := elemD doc q
    if jsTruthyS (getAttr d "id") then ["#" ++ (getAttr d "id").getD ""]
    else selClimb doc p k ++ [selSeg doc q]

def generateSelector (doc : Doc) (p : List Nat) : String :=
  let d := elemD doc p
  if jsTruthyS (getAttr d "id") then "#" ++ (getAttr d "id").getD ""
  else
    let cls := wsTokens ((getAttr d "class").getD "")
    if !cls.isEmpty && classUnique doc cls then
      String.join (cls.map (fun c => "." ++ c))
    else
      match jsOptTruthy (getAttr d "data-testid") with
      | some t => "[data-testid=\"" ++ t ++ "\"]"
      | none =>
        match jsOptTruthy (getAttr d "data-id") with
        | some t => "[data-id=\"" ++ t ++ "\"]"
        | none => joinSep " > " (selClimb doc p p.length)

/-- One `tag[index]` xpath segment: 1 + the number of earlier same-tag
element siblings. -/
def xpathSeg (doc : Doc) (q : List Nat) : String :=
  let d := elemD doc q
  let idx := ((parentChildren doc q).filter
    (fun x => x.1 < lastIdx q && x.2.tag == d.tag)).length + 1
  if 1 < idx then d.tag ++ "[" ++ toString idx ++ "]" else d.tag

def xpathClimb (doc : Doc) (p : List Nat) : Nat → List String
  | 0 => []
  | k + 1 => xpathClimb doc p k ++ [xpathSeg doc (p.take (k + 1))]

def generateXPath (doc : Doc) (p : List Nat) : String :=
  let d := elemD doc p
  if jsTruthyS (getAttr d "id") then "//*[@id=\"" ++ (getAttr d "id").getD "" ++ "\"]"
  else "/html/body" ++ String.join ((xpathClimb doc p p.length).map (fun s => "/" ++ s))

def getAccessibleName (doc : Doc) (p : List Nat) (d : ElemData) : String :=
  let ariaLabel := getAttr d "aria-label"
  if jsTruthyS ariaLabel then ariaLabel.getD ""
  else
    let labelledBy := getAttr d "aria-labelledby"
    let byLabel :=
      if jsTruthyS labelledBy then
        match getElementById doc (labelledBy.getD "") with
        | some q => some (normalizeWhitespace (elTextContent doc q))
        | none => none
      else none
    match byLabel with
    | some s => s
    | none =>
      let fromLabel :=
        if isInputEl d || isSelectEl d || isTextareaEl d then
          match closestPath doc p (fun e => e.tag == "label") with
          | some q => some (normalizeWhitespace (elTextContent doc q))
          | none =>
            if jsTruthyS (getAttr d "id") then
              match labelForPath doc ((getAttr d "id").getD "") with
              | some q => some (normalizeWhitespace (elTextContent doc q))
              | none => none
            else none
        else none
      match fromLabel with
      | some s => s
      | none =>
        let title := getAttr d "title"
        if jsTruthyS title then title.getD ""
        else truncateText (normalizeWhitespace (elTextContent doc p)) 100

def getRelevantAttrNames : List String :=
  ["name", "type", "value", "placeholder", "data-testid", "data-action"]

def getRelevantAttributes (d : ElemData) : Option (List (String × String)) :=
  let relevant := getRelevantAttrNames.filterMap (fun a =>
    match getAttr d a with
    | some v => if v == "" then none else some (a, v)
    | none => none)
  if relevant.isEmpty then none else some relevant

def getContext (doc : Doc) (p : List Nat) : Option String :=
  match closestPath doc p (fun e =>
      hasAttr e "role" || e.tag == "nav" || e.tag == "main" || e.tag == "aside" ||
      e.tag == "section" || e.tag == "article") with
  | some q =>
    if q == p then none
    else
      let e := elemD doc q
      let role := jsOrS ((getAttr e "role").getD "") e.tag
      match jsOptTruthy (getAttr e "aria-label") with
      | some l => some (role ++ ": " ++ l)
      | none => some role
  | none => none

def getInteractiveType (d : ElemData) : String :=
  let role := getAttr d "role"
  if d.tag == "a" then "link"
  else if d.tag == "button" || role == some "button" then "button"
  else if d.tag == "input" then "input"
  else if d.tag == "select" || role == some "listbox" || role == some "combobox" then "select"
  else if role == some "checkbox" then "checkbox"
  else if role == some "radio" then "radio"
  else if d.tag == "textarea" || role == some "textbox" then "textarea"
  else if role == some "menu" || role == some "menubar" then "menu"
  else if role == some "tab" then "tab"
  else if role == some "dialog" || d.tag == "dialog" then "dialog"
  else "other"

/-- The JS sort comparator of both interactive modes, as a `≤`-style
relation: `comparator(a, b) <= 0` (y difference when above the 20px band,
x difference inside it, 0 when a box is missing). -/
def bbCmpLe (a b : Option Rect) : Bool :=
  match a, b with
  | some ra, some rb =>
    if 20 < (ra.y - rb.y).natAbs then decide (ra.y ≤ rb.y) else decide (ra.x ≤ rb.x)
  | _, _ => true

/-- The `data-agent-index` marked on the element at path `q` after the
index-marking pass (`-1` when the attribute is absent): `origIdx` is the
sorted elements' original `index` fields, `kept` the query-order paths. -/
def agentIndexOf (kept : List (List Nat)) (origIdx : List Nat) (q : List Nat) : Int :=
  match origIdx.enum.find? (fun x => kept.get? x.2 == some q) with
  | some x => Int.ofNat x.1
  | none => -1

/-! ## ALL_FIELDS distillation (`DOMDistiller.distillAllFields`) -/

structure InteractiveElement where
  index : Nat
  tag : String
  type : String
  selector : String
  xpath : String
  visible : Bool
  interactable : Bool
  boundingBox : Option Rect := none
  role : Option String := none
  accessibleName : String
  text : String
  href : Option String := none
  attributes : Option (List (String × String)) := none
  context : Option String := none
deriving DecidableEq, Repr

def matchesAllFieldsSelector (d : ElemData) : Bool :=
  (d.tag == "a" && hasAttr d "href") ||
  d.tag == "button" ||
  (d.tag == "input" && !(getAttr d "type" == some "hidden")) ||
  d.tag == "select" || d.tag == "textarea" ||
  hasAttr d "role" || hasAttr d "tabindex" || hasAttr d "onclick" ||
  getAttr d "contenteditable" == some "true"

/-- The role skip: `if (role && !INTERACTIVE_ROLES.has(role) &&
!LANDMARK_ROLES.has(role)) return` — note `role=""` is falsy and passes. -/
def allFieldsRolePass (d : ElemData) : Bool :=
  match getAttr d "role" with
  | none => true
  | some r => r == "" || interactiveRoles.contains r || landmarkRoles.contains r

/-- Query-order paths surviving the three skips of the `forEach` body.
As in TEXT_ONLY mode, the `if (elements.length >= MAX_ELEMENTS[ALL_FIELDS])
return` at the end of the callback is dead code, so no cap applies. -/
def keptAllFields (doc : Doc) : List (List Nat) :=
  ((docElemPaths doc).filter (fun p => matchesAllFieldsSelector (elemD doc p))).filter
    (fun p =>
      !isInsideExcluded doc p &&
      allFieldsRolePass (elemD doc p) &&
      (isVisible doc (elemD doc p) ||
       (closestPath doc p (fun e => e.tag == "form")).isSome))

def buildInteractiveElement (doc : Doc) (idx : Nat) (p : List Nat) : InteractiveElement :=
  let d := elemD doc p
  { index := idx, tag := d.tag, type := getInteractiveType d,
    selector := generateSelector doc p, xpath := generateXPath doc p,
    visible := isVisible doc d, interactable := isInteractable doc d,
    boundingBox := getBoundingBox d,
    role := jsOptTruthy (getAttr d "role"),
    accessibleName := getAccessibleName doc p d,
    text := truncateText (normalizeWhitespace (elTextContent doc p)) 100,
    href := jsOptTruthy (getAttr d "href"),
    attributes := getRelevantAttributes d,
    context := getContext doc p }

def ieLe (a b : InteractiveElement) : Prop :=
  bbCmpLe a.boundingBox b.boundingBox = true

instance ieLe.decRel : DecidableRel ieLe := fun a b =>
  decidable_of_iff (bbCmpLe a.boundingBox b.boundingBox = true) Iff.rfl

structure LandmarkInfo where
  role : String
  label : Option String := none
  elementIndex : Int
deriving DecidableEq, Repr

/-- The `semanticMappings` object, in `Object.entries` order. -/
def semanticLandmarks : List (String × String) :=
  [("header", "banner"), ("footer", "contentinfo"), ("main", "main"),
   ("nav", "navigation"), ("aside", "complementary")]

def extractLandmarks (doc : Doc) (agentIdx : List Nat → Int) : List LandmarkInfo :=
  (landmarkRoles.map (fun role =>
    ((docElemPaths doc).filter (fun q => getAttr (elemD doc q) "role" == some role)).map
      (fun q => { role := role, label := jsOptTruthy (getAttr (elemD doc q) "aria-label"),
                  elementIndex := agentIdx q }))).join ++
  (semanticLandmarks.map (fun tr =>
    ((docElemPaths doc).filter
        (fun q => (elemD doc q).tag == tr.1 && !hasAttr (elemD doc q) "role")).map
      (fun q => { role := tr.2, label := jsOptTruthy (getAttr (elemD doc q) "aria-label"),
                  elementIndex := agentIdx q }))).join

structure AllFieldsDOM where
  mode : String := "all_fields"
  url : String
  title : String
  elements : List InteractiveElement
  landmarks : List LandmarkInfo
  tokenCount : Nat
deriving DecidableEq, Repr

def distillAllFields (doc : Doc) : AllFieldsDOM :=
  let kept := keptAllFields doc
  let raw := kept.enum.map (fun x => buildInteractiveElement doc x.1 x.2)
  let elements := List.insertionSort ieLe raw
  let landmarks := extractLandmarks doc
    (agentIndexOf kept (elements.map (fun e => e.index)))
  { url := doc.url, title := doc.title, elements := elements,
    landmarks := landmarks,
    tokenCount := estimateTokens (reprStr (elements, landmarks)) }

/-! ## ALL_FIELDS, Playwright bridge (`distillFromPlaywright`)

Same candidate selector, but: no excluded-ancestry check, **no role
filter**, the bridge's own visibility test, a working cap (`break` at 300),
and a flat entry shape without a `role` field. -/

structure PtwInteractiveElement where
  index : Nat
  tag : String
  type : String
  selector : String
  xpath : String := ""
  visible : Bool
  interactable : Bool
  boundingBox : Option Rect := none
  accessibleName : String
  text : String
  placeholder : Option String := none
  inputType : Option String := none
  currentValue : Option String := none
  contextHint : Option String := none
deriving DecidableEq, Repr

/-- The bridge's bounding box: requires strictly positive extent. -/
def ptwBoundingBox (d : ElemData) : Option Rect :=
  if d.rect.width > 0 && d.rect.height > 0 then some d.rect else none

/-- `(el as HTMLInputElement).type`: the IDL `type` property of the cast
target (normalized for inputs, fixed for select/textarea/button,
`undefined` → `""` otherwise). -/
def jsDotType (d : ElemData) : String :=
  if isInputEl d then htmlInputType d
  else if isSelectEl d then (if hasAttr d "multiple" then "select-multiple" else "select-one")
  else if isTextareaEl d then "textarea"
  else if d.isHTML && d.tag == "button" then
    (let t := jsToLower ((getAttr d "type").getD "")
     if t == "submit" || t == "reset" || t == "button" then t else "submit")
  else ""

/-- `(el as HTMLInputElement).value` (`undefined` → `""`). -/
def jsDotValue (d : ElemData) : String :=
  if isInputEl d || isTextareaEl d || isSelectEl d then d.val
  else if d.isHTML && d.tag == "button" then (getAttr d "value").getD ""
  else ""

def ptwTagType (tag : String) : String :=
  if tag == "a" then "link"
  else if tag == "button" then "button"
  else if tag == "select" then "select"
  else if tag == "textarea" then "textarea"
  else "input"

def ptwSelSeg (doc : Doc) (q : List Nat) : String :=
  let d := elemD doc q
  let sibs := (parentChildren doc q).filter (fun x => x.2.tag == d.tag)
  if sibs.length == 1 then d.tag
  else d.tag ++ ":nth-of-type(" ++ toString (sibs.findIdx (fun x => x.1 == lastIdx q) + 1) ++ ")"

def ptwSelClimb (doc : Doc) (p : List Nat) : Nat → List String
  | 0 => []
  | k + 1 => ptwSelClimb doc p k ++ [ptwSelSeg doc (p.take (k + 1))]

def ptwSelectorFor (doc : Doc) (p : List Nat) : String :=
  let d := elemD doc p
  if jsTruthyS (getAttr d "id") then "#" ++ (getAttr d "id").getD ""
  else
    match jsOptTruthy (getAttr d "data-testid") with
    | some t => "[data-testid=\"" ++ t ++ "\"]"
    | none =>
      match jsOptTruthy (getAttr d "name") with
      | some nm => d.tag ++ "[name=\"" ++ nm ++ "\"]"
      | none => joinSep " > " (ptwSelClimb doc p p.length)

def ptwContextHint (d : ElemData) (placeholder inputType inputValue role : String) :
    Option String :=
  if d.tag == "input" || d.tag == "textarea" then
    let hints :=
      (if placeholder != "" then ["placeholder=\"" ++ placeholder ++ "\""] else []) ++
      (if inputType != "" && inputType != "text" then ["type=\"" ++ inputType ++ "\""] else []) ++
      (if inputValue != "" then ["value=\"" ++ ptwTruncate inputValue 50 ++ "\""] else []) ++
      (if role != "" then ["role=\"" ++ role ++ "\""] else [])
    jsOptTruthy (some (joinSep " " hints))
  else none

def ptwBuildEntry (doc : Doc) (idx : Nat) (p : List Nat) : PtwInteractiveElement :=
  let d := elemD doc p
  let placeholder := (getAttr d "placeholder").getD ""
  let inputType := jsOrS (jsDotType d) ((getAttr d "type").getD "")
  let inputValue := jsDotValue d
  let ariaLabel := (getAttr d "aria-label").getD ""
  let nameAttr := (getAttr d "name").getD ""
  let role := (getAttr d "role").getD ""
  { index := idx, tag := d.tag, type := ptwTagType d.tag,
    selector := ptwSelectorFor doc p,
    visible := ptwIsVisible d, interactable := ptwIsVisible d,
    boundingBox := ptwBoundingBox d,
    accessibleName := ptwTruncate (normalizeWhitespace
      (jsOrS ariaLabel (jsOrS placeholder (jsOrS (elTextContent doc p) nameAttr)))),
    text := ptwTruncate (normalizeWhitespace (elTextContent doc p)) 100,
    placeholder := jsOptTruthy (some placeholder),
    inputType := jsOptTruthy (some inputType),
    currentValue := (jsOptTruthy (some inputValue)).map (fun v => ptwTruncate v 50),
    contextHint := ptwContextHint d placeholder inputType inputValue role }

/-- The bridge's element loop: visibility-or-in-form skip, working cap. -/
def ptwAllLoop (doc : Doc) (max : Nat) :
    List (List Nat) → List PtwInteractiveElement → List PtwInteractiveElement
  | [], acc => acc
  | p :: rest, acc =>
    let d := elemD doc p
    if !ptwIsVisible d && (closestPath doc p (fun e => e.tag == "form")).isNone then
      ptwAllLoop doc max rest acc
    else
      let acc1 := acc ++ [ptwBuildEntry doc acc.length p]
      if max ≤ acc1.length then acc1
      else ptwAllLoop doc max rest acc1

structure PtwAllFieldsDOM where
  mode : String := "all_fields"
  url : String
  title : String
  elements : List PtwInteractiveElement
  tokenCount : Nat
deriving DecidableEq, Repr

def ptwDistillAllFields (doc : Doc) : PtwAllFieldsDOM :=
  let nodes := (docElemPaths doc).filter (fun p => matchesAllFieldsSelector (elemD doc p))
  let elements := ptwAllLoop doc 300 nodes []
  { url := doc.url, title := doc.title, elements := elements,
    tokenCount := estimateTokens (reprStr elements) }

/-! ## INPUT_FIELDS distillation (`DOMDistiller.distillInputFields`) -/

def matchesInputFieldsSelector (d : ElemData) : Bool :=
  (d.tag == "input" && !(getAttr d "type" == some "hidden")) ||
  d.tag == "textarea" || d.tag == "select" || d.tag == "button" ||
  getAttr d "role" == some "button" || getAttr d "role" == some "textbox" ||
  getAttr d "role" == some "checkbox" || getAttr d "role" == some "radio" ||
  getAttr d "role" == some "combobox" || getAttr d "role" == some "searchbox" ||
  getAttr d "contenteditable" == some "true"

/-- Query-order paths surviving the skips (cap again dead code). -/
def keptInputFields (doc : Doc) : List (List Nat) :=
  ((docElemPaths doc).filter (fun p => matchesInputFieldsSelector (elemD doc p))).filter
    (fun p =>
      !isInsideExcluded doc p &&
      (isVisible doc (elemD doc p) ||
       (closestPath doc p (fun e => e.tag == "form")).isSome))

/-- `getElementValue`: masks password inputs, reads `value` for the other
form controls, `textContent || undefined` for contenteditable. -/
def getElementValue (doc : Doc) (p : List Nat) (d : ElemData) : Option String :=
  if isInputEl d then
    some (if htmlInputType d == "password" then "********" else d.val)
  else if isTextareaEl d then some d.val
  else if isSelectEl d then some d.val
  else if hasAttr d "contenteditable" then jsOptTruthy (some (elTextContent doc p))
  else none

def getLabel (doc : Doc) (p : List Nat) (d : ElemData) : Option String :=
  match closestPath doc p (fun e => e.tag == "label") with
  | some q => some (truncateText (normalizeWhitespace (elTextContent doc q)) 100)
  | none =>
    match (if jsTruthyS (getAttr d "id")
           then labelForPath doc ((getAttr d "id").getD "") else none) with
    | some q => some (truncateText (normalizeWhitespace (elTextContent doc q)) 100)
    | none => jsOptTruthy (getAttr d "aria-label")

def getSelectOptions (d : ElemData) : Option (List SelOption) :=
  if isSelectEl d then some d.options else none

def getButtonText (doc : Doc) (p : List Nat) (d : ElemData) : Option String :=
  if d.tag == "button" || getAttr d "role" == some "button" ||
     (isInputEl d && (htmlInputType d == "submit" || htmlInputType d == "button" ||
                      htmlInputType d == "reset")) then
    match jsOptTruthy (some (truncateText (normalizeWhitespace (elTextContent doc p)) 50)) with
    | some t => some t
    | none => jsOptTruthy (getAttr d "value")
  else none

def getInputType (d : ElemData) : String :=
  if d.tag == "textarea" then "textarea"
  else if d.tag == "select" then "select"
  else if d.tag == "button" then "button"
  else if isInputEl d then
    (let t := htmlInputType d
     if t == "checkbox" then "checkbox"
     else if t == "radio" then "radio"
     else if t == "submit" || t == "button" || t == "reset" then "button"
     else "input")
  else
    (let role := getAttr d "role"
     if role == some "button" then "button"
     else if role == some "checkbox" then "checkbox"
     else if role == some "radio" then "radio"
     else if role == some "textbox" then "input"
     else if role == some "combobox" || role == some "listbox" then "select"
     else "input")

structure InputFieldElement where
  index : Nat
  tag : String
  type : String
  selector : String
  xpath : String
  visible : Bool
  interactable : Bool
  boundingBox : Option Rect := none
  role : Option String := none
  accessibleName : String
  inputType : Option String := none
  value : Option String := none
  placeholder : Option String := none
  label : Option String := none
  required : Bool
  disabled : Bool
  pattern : Option String := none
  options : Option (List SelOption) := none
  buttonText : Option String := none
deriving DecidableEq, Repr

def buildInputFieldElement (doc : Doc) (idx : Nat) (p : List Nat) : InputFieldElement :=
  let d := elemD doc p
  { index := idx, tag := d.tag, type := getInputType d,
    selector := generateSelector doc p, xpath := generateXPath doc p,
    visible := isVisible doc d, interactable := isInteractable doc d,
    boundingBox := getBoundingBox d,
    role := jsOptTruthy (getAttr d "role"),
    accessibleName := getAccessibleName doc p d,
    inputType := if isInputEl d then some (htmlInputType d) else none,
    value := (getElementValue doc p d).bind (fun v => jsOptTruthy (some v)),
    placeholder := jsOptTruthy (getAttr d "placeholder"),
    label := (getLabel doc p d).bind (fun l => jsOptTruthy (some l)),
    required := hasAttr d "required" || getAttr d "aria-required" == some "true",
    disabled := hasAttr d "disabled" || getAttr d "aria-disabled" == some "true",
    pattern := jsOptTruthy (getAttr d "pattern"),
    options := getSelectOptions d,
    buttonText := (getButtonText doc p d).bind (fun t => jsOptTruthy (some t)) }

def ifLe (a b : InputFieldElement) : Prop :=
  bbCmpLe a.boundingBox b.boundingBox = true

instance ifLe.decRel : DecidableRel ifLe := fun a b =>
  decidable_of_iff (bbCmpLe a.boundingBox b.boundingBox = true) Iff.rfl

structure FormInfo where
  index : Nat
  name : Option String := none
  action : Option String := none
  method : Option String := none
  fieldIndices : List Int
deriving DecidableEq, Repr

def formFieldTags : List String := ["input", "select", "textarea", "button"]

def extractForms (doc : Doc) (agentIdx : List Nat → Int) : List FormInfo :=
  (((docElemPaths doc).filter (fun q => (elemD doc q).tag == "form")).enum).map
    (fun x =>
      let fields := (descendantsOf doc x.2).filter
        (fun q => formFieldTags.contains (elemD doc q).tag)
      { index := x.1,
        name := jsOptTruthy (getAttr (elemD doc x.2) "name"),
        action := jsOptTruthy (getAttr (elemD doc x.2) "action"),
        method := jsOptTruthy (getAttr (elemD doc x.2) "method"),
        fieldIndices := (fields.map agentIdx).filter (fun i => 0 ≤ i) })

structure InputFieldsDOM where
  mode : String := "input_fields"
  url : String
  title : String
  elements : List InputFieldElement
  forms : List FormInfo
  tokenCount : Nat
deriving DecidableEq, Repr

def distillInputFields (doc : Doc) : InputFieldsDOM :=
  let kept := keptInputFields doc
  let raw := kept.enum.map (fun x => buildInputFieldElement doc x.1 x.2)
  let elements := List.insertionSort ifLe raw
  let forms := extractForms doc
    (agentIndexOf kept (elements.map (fun e => e.index)))
  { url := doc.url, title := doc.title, elements := elements, forms := forms,
    tokenCount := estimateTokens (reprStr (elements, forms)) }

/-! ## Password scrubbing (for the non-interference statement)

`scrubPw` erases exactly the current `value` of every password input;
two documents differ only in password contents iff their scrubs are
equal. -/

def scrubElem (d : ElemData) : ElemData :=
  if isInputEl d && htmlInputType d == "password" then { d with val := "" } else d

mutual

def scrubNode : DomNode → DomNode
  | .text s => .text s
  | .elem d cs => .elem (scrubElem d) (scrubList cs)

def scrubList : List DomNode → List DomNode
  | [] => []
  | n :: rest => scrubNode n :: scrubList rest

end

def scrubPw (doc : Doc) : Doc := { doc with body := scrubNode doc.body }

/-! ## Change observer (`ChangeObserver.ts`)

Mutation records carry snapshots of their target nodes (`MutTarget.el` for
element nodes, `.other` for text/comment nodes, whose `nodeName` the source
lowercases).  `new URL(url).pathname` is a host API, modelled by
`urlPathname` for absolute scheme://host URLs. -/

inductive MutTarget where
  | el (d : ElemData)
  | other (nodeName : String)

structure MutRecord where
  type : String
  target : MutTarget
  addedNodes : List MutTarget := []
  removedNodes : List MutTarget := []
  attributeName : Option String := none
  oldValue : Option String := none

structure ObserverState where
  url : String
  title : String
  mutations : List MutRecord

/-- `${x}` for a nullable string (JS renders `null`). -/
def optStrOrNull : Option String → String
  | none => "null"
  | some s => s

/-- `className.split(' ')` (single-space separator, as in the source). -/
def splitOnSpaceAux : List Char → List Char → List (List Char)
  | [], cur => [cur.reverse]
  | c :: rest, cur =>
    if c == ' ' then cur.reverse :: splitOnSpaceAux rest []
    else splitOnSpaceAux rest (c :: cur)

def splitOnSpace (s : String) : List String :=
  (splitOnSpaceAux s.data []).map (fun l => ⟨l⟩)

/-- `describeElement`: tag, then `#id` or up to two classes. -/
def describeElement : MutTarget → String
  | .other nodeName => jsToLower nodeName
  | .el e =>
    let desc := e.tag
    if jsTruthyS (getAttr e "id") then
      desc ++ "#" ++ (getAttr e "id").getD ""
    else
      let className := (getAttr e "class").getD ""
      let classes := ((splitOnSpace className).filter (fun c => c != "")).take 2
      if className != "" && classes.length > 0 then
        desc ++ "." ++ String.intercalate "." classes
      else desc

/-- `getElementDescription`: role, class-keyword hints, then tag mapping. -/
def getElementDescription (e : ElemData) : String :=
  if jsTruthyS (getAttr e "role") then (getAttr e "role").getD ""
  else
    let className := jsToLower ((getAttr e "class").getD "")
    if strContains className "modal" then "modal"
    else if strContains className "dialog" then "dialog"
    else if strContains className "popup" then "popup"
    else if strContains className "menu" then "menu"
    else if strContains className "dropdown" then "dropdown"
    else if strContains className "toast" then "notification"
    else if strContains className "alert" then "alert"
    else if e.tag == "dialog" then "dialog"
    else if e.tag == "nav" then "navigation"
    else if e.tag == "form" then "form"
    else if e.tag == "button" then "button"
    else if e.tag == "input" then "input field"
    else if e.tag == "select" then "dropdown"
    else e.tag

def ignoredAttrs : List String := ["style", "class", "data-reactid", "data-reactroot"]

def significantAttrs : List String :=
  ["disabled", "hidden", "aria-hidden", "aria-expanded", "value", "checked", "selected"]

def isSignificantAttributeChange (attr : String)
    (_oldValue _newValue : Option String) : Bool :=
  if ignoredAttrs.contains attr then false
  else if significantAttrs.contains attr then true
  else false

structure MutAcc where
  changes : List DOMChange
  seen : List String

/-- One node of the added/removed loops of `processMutations`. -/
def processChildNode (kind : String) (describe : ElemData → String)
    (acc : MutAcc) (node : MutTarget) : MutAcc :=
  match node with
  | .other _ => acc
  | .el e =>
    let desc := describeElement (.el e)
    let key := kind ++ ":" ++ desc
    if acc.seen.contains key then acc
    else
      { changes := acc.changes ++
          [{ type := kind, target := desc, description := describe e }],
        seen := acc.seen ++ [key] }

/-- One `MutationRecord` of the `processMutations` loop. -/
def processMutation (acc : MutAcc) (m : MutRecord) : MutAcc :=
  let target := describeElement m.target
  if m.type == "childList" then
    let acc1 := m.addedNodes.foldl
      (processChildNode "added" (fun e => "New " ++ getElementDescription e ++ " appeared")) acc
    m.removedNodes.foldl
      (processChildNode "removed" (fun e => getElementDescription e ++ " was removed")) acc1
  else if m.type == "attributes" then
    let key := "modified:" ++ target ++ ":" ++ optStrOrNull m.attributeName
    if !(acc.seen.contains key) && jsTruthyS m.attributeName then
      let seen1 := acc.seen ++ [key]
      let newValue := match m.target with
        | .el e => getAttr e (m.attributeName.getD "")
        | .other _ => none
      if isSignificantAttributeChange (m.attributeName.getD "") m.oldValue newValue then
        { changes := acc.changes ++
            [{ type := "modified", target := target,
               description := (m.attributeName.getD "") ++ " changed from \"" ++
                 optStrOrNull m.oldValue ++ "\" to \"" ++ optStrOrNull newValue ++ "\"" }],
          seen := seen1 }
      else { acc with seen := seen1 }
    else acc
  else if m.type == "characterData" then
    let key := "text:" ++ target
    if acc.seen.contains key then acc
    else
      { changes := acc.changes ++
          [{ type := "text", target := target, description := "Text content changed" }],
        seen := acc.seen ++ [key] }
  else acc

def processMutations (muts : List MutRecord) : List DOMChange :=
  (muts.foldl processMutation ⟨[], []⟩).changes

/-- The phrases `findSignificantChanges` pushes for one change, in order. -/
def significantForChange (c : DOMChange) : List String :=
  let target := jsToLower c.target
  let desc := jsToLower c.description
  (if strContains target "modal" || strContains target "dialog" || strContains target "popup" then
    (if c.type == "added" then ["A modal/dialog appeared"]
     else if c.type == "removed" then ["A modal/dialog was closed"] else [])
   else []) ++
  (if strContains target "error" || strContains desc "error" then
    ["An error message appeared"] else []) ++
  (if strContains target "success" || strContains desc "success" then
    ["A success message appeared"] else []) ++
  (if strContains target "loading" || strContains target "spinner" then
    (if c.type == "added" then ["Page is loading"]
     else if c.type == "removed" then ["Loading completed"] else [])
   else []) ++
  (if strContains desc "submitted" || strContains desc "form" then
    ["Form state changed"] else []) ++
  (if strContains target "cart" || strContains target "checkout" then
    ["Cart/checkout was updated"] else [])

/-- `[...new Set(l)]`: deduplicate keeping first occurrences. -/
def dedupeAux : List String → List String → List String
  | [], _ => []
  | x :: rest, seen =>
    if seen.contains x then dedupeAux rest seen
    else x :: dedupeAux rest (seen ++ [x])

def findSignificantChanges (changes : List DOMChange) : List String :=
  dedupeAux (changes.foldl (fun acc c => acc ++ significantForChange c) []) []

/-- `new URL(u).pathname`, modelled for absolute `scheme://host/...` URLs. -/
def charsAfterSub (sep : List Char) : List Char → Option (List Char)
  | [] => if sep.isEmpty then some [] else none
  | c :: rest =>
    if listHasPre sep (c :: rest) then some ((c :: rest).drop sep.length)
    else charsAfterSub sep rest

def urlPathname (u : String) : String :=
  match charsAfterSub "://".data u.data with
  | none => "/"
  | some rest =>
    let path := rest.dropWhile (fun c => c != '/')
    let path1 := path.takeWhile (fun c => c != '?' && c != '#')
    if path1.isEmpty then "/" else ⟨path1⟩

def generateVerbalFeedback (changes : List DOMChange) (urlChanged : Bool)
    (newUrl : String) (titleChanged : Bool) (newTitle : String) : String :=
  let parts : List String :=
    (if urlChanged then ["Page navigated to " ++ urlPathname newUrl] else []) ++
    (if titleChanged && !urlChanged then
      ["Page title changed to \"" ++ newTitle ++ "\""] else [])
  let addedCount := (changes.filter (fun c => c.type == "added")).length
  let removedCount := (changes.filter (fun c => c.type == "removed")).length
  let modifiedCount := (changes.filter (fun c => c.type == "modified")).length
  let significantChanges := findSignificantChanges changes
  let parts :=
    if significantChanges.length > 0 then parts ++ significantChanges.take 3
    else if addedCount + removedCount + modifiedCount > 0 then
      let summary : List String :=
        (if addedCount > 0 then [toString addedCount ++ " elements added"] else []) ++
        (if removedCount > 0 then [toString removedCount ++ " elements removed"] else []) ++
        (if modifiedCount > 0 then [toString modifiedCount ++ " elements modified"] else [])
      parts ++ [String.intercalate ", " summary]
    else parts
  if parts.length == 0 then "No significant changes detected"
  else String.intercalate ". " parts

/-- `startObserving`: record the baseline and begin with no mutations
(arming while armed resets the baseline — last arm wins). -/
def startObserving (currentUrl currentTitle : String) : ObserverState :=
  { url := currentUrl, title := currentTitle, mutations := [] }

/-- `stopObserving`: `currentUrl`/`currentTitle` are the document's values
at disarm time; `state` is `none` when the observer was never armed. -/
def stopObserving (currentUrl currentTitle : String)
    (state : Option ObserverState) : ChangeReport :=
  match state with
  | none =>
      { mutations := [], verbalFeedback := "No changes observed",
        urlChanged := false, newUrl := none, titleChanged := false, newTitle := none }
  | some st =>
      let urlChanged := currentUrl != st.url
      let titleChanged := currentTitle != st.title
      let changes := processMutations st.mutations
      let verbalFeedback :=
        generateVerbalFeedback changes urlChanged currentUrl titleChanged currentTitle
      { mutations := changes, verbalFeedback := verbalFeedback,
        urlChanged := urlChanged,
        newUrl := if urlChanged then some currentUrl else none,
        titleChanged := titleChanged,
        newTitle := if titleChanged then some currentTitle else none }

/-! ## Action executor (`ActionExecutor.ts`)

The browser adapter is an environment of fallible operations
(`Except String Unit`, an error being a rejected promise); `await`/`try`
chains become explicit `Except` propagation.  `distillerGet` models
`distiller.getElement` (browser mode, a real element handle) and
`selectorGet` the `indexToSelector` fallback map (Node mode).
`getElementSnapshot` catches its own errors, so it is a total
`Option`-valued environment call; wall-clock durations are `elapsed`. -/

inductive ElemRef where
  | node (handle : Nat)
  | selector (s : String)
deriving DecidableEq, Repr

structure ElementSnapshot where
  index : Nat
  selector : String := ""
  visible : Bool := true
deriving DecidableEq, Repr

structure ActionError where
  code : String
  message : String
  recoverable : Bool
  suggestion : Option String := none
deriving DecidableEq, Repr

structure ActionParamsRec where
  index : Option Nat := none
  button : Option String := none
  text : Option String := none
  clearFirst : Bool := false
  delay : Option Nat := none
  value : Option String := none
  direction : Option String := none
  amount : Option Nat := none
  key : Option String := none
  modifiers : Option (List String) := none
  duration : Option Nat := none
  selector : Option String := none
  timeout : Option Nat := none
  state : Option String := none
  url : Option String := none
deriving DecidableEq, Repr

structure ExecActionResult where
  success : Bool
  action : String
  params : ActionParamsRec
  error : Option ActionError := none
  duration : Nat
  before : Option ElementSnapshot := none
  after : Option ElementSnapshot := none
  verbalFeedback : String
deriving DecidableEq, Repr

structure ActionExecutorConfig where
  defaultTimeout : Nat := 5000
  typeDelay : Nat := 50
  scrollAmount : Nat := 300
deriving DecidableEq, Repr

structure ExecEnv where
  distillerGet : Nat → Option Nat
  selectorGet : Nat → Option String
  click : ElemRef → Option String → Except String Unit
  doubleClick : ElemRef → Except String Unit
  typeText : ElemRef → Option String → Nat → Except String Unit
  clear : ElemRef → Except String Unit
  select : ElemRef → Option String → Except String Unit
  check : ElemRef → Except String Unit
  uncheck : ElemRef → Except String Unit
  hover : ElemRef → Except String Unit
  scroll : Option String → Nat → Except String Unit
  scrollToElement : ElemRef → Except String Unit
  focus : ElemRef → Except String Unit
  press : Option String → Option (List String) → Except String Unit
  wait : Option Nat → Except String Unit
  waitForSelector : Option String → Nat → Option String → Except String Unit
  navigate : Option String → Except String Unit
  goBack : Except String Unit
  goForward : Except String Unit
  refresh : Except String Unit
  snapshotBefore : Nat → Option ElementSnapshot
  snapshotAfter : Nat → Option ElementSnapshot
  elapsed : Nat

/-- `${x}` for a possibly-undefined number. -/
def optNatStr : Option Nat → String
  | none => "undefined"
  | some n => toString n

/-- `${x}` for a possibly-undefined string. -/
def optStrOrUndefined : Option String → String
  | none => "undefined"
  | some s => s

/-- `getElement`: distiller element, then selector fallback, else throw. -/
def execGetElement (env : ExecEnv) (idx : Option Nat) : Except String ElemRef :=
  match idx.bind env.distillerGet with
  | some h => .ok (.node h)
  | none =>
    match idx.bind env.selectorGet with
    | some s => .ok (.selector s)
    | none => .error ("Element not found at index " ++ optNatStr idx)

def knownActions : List String :=
  ["click", "doubleClick", "type", "clear", "select", "check", "uncheck",
   "hover", "scroll", "scrollToElement", "focus", "press", "wait",
   "waitForElement", "navigate", "goBack", "goForward", "refresh"]

/-- `executeAction`: the switch over the action vocabulary; the default
branch throws `Unknown action`. -/
def executeAction (env : ExecEnv) (config : ActionExecutorConfig)
    (action : String) (p : ActionParamsRec) : Except String Unit :=
  if action == "click" then
    match execGetElement env p.index with
    | .error e => .error e
    | .ok element => env.click element p.button
  else if action == "doubleClick" then
    match execGetElement env p.index with
    | .error e => .error e
    | .ok element => env.doubleClick element
  else if action == "type" then
    match execGetElement env p.index with
    | .error e => .error e
    | .ok element =>
      match (if p.clearFirst then env.clear element else .ok ()) with
      | .error e => .error e
      | .ok _ => env.typeText element p.text (p.delay.getD config.typeDelay)
  else if action == "clear" then
    match execGetElement env p.index with
    | .error e => .error e
    | .ok element => env.clear element
  else if action == "select" then
    match execGetElement env p.index with
    | .error e => .error e
    | .ok element => env.select element p.value
  else if action == "check" then
    match execGetElement env p.index with
    | .error e => .error e
    | .ok element => env.check element
  else if action == "uncheck" then
    match execGetElement env p.index with
    | .error e => .error e
    | .ok element => env.uncheck element
  else if action == "hover" then
    match execGetElement env p.index with
    | .error e => .error e
    | .ok element => env.hover element
  else if action == "scroll" then
    env.scroll p.direction (p.amount.getD config.scrollAmount)
  else if action == "scrollToElement" then
    match execGetElement env p.index with
    | .error e => .error e
    | .ok element => env.scrollToElement element
  else if action == "focus" then
    match execGetElement env p.index with
    | .error e => .error e
    | .ok element => env.focus element
  else if action == "press" then
    env.press p.key p.modifiers
  else if action == "wait" then
    env.wait p.duration
  else if action == "waitForElement" then
    env.waitForSelector p.selector (p.timeout.getD config.defaultTimeout) p.state
  else if action == "navigate" then
    env.navigate p.url
  else if action == "goBack" then
    env.goBack
  else if action == "goForward" then
    env.goForward
  else if action == "refresh" then
    env.refresh
  else
    .error ("Unknown action: " ++ action)

/-- `createError`: classify the thrown message. -/
def createError (message : String) : ActionError :=
  if strContains message "not found" then
    { code := "ELEMENT_NOT_FOUND", message := message, recoverable := true,
      suggestion := some "Try refreshing the page or waiting for the element" }
  else if strContains message "not visible" then
    { code := "ELEMENT_NOT_VISIBLE", message := message, recoverable := true,
      suggestion := some "Try scrolling to the element first" }
  else if strContains message "timeout" then
    { code := "TIMEOUT", message := message, recoverable := true,
      suggestion := some "Try increasing the timeout or waiting for page load" }
  else if strContains message "network" then
    { code := "NETWORK_ERROR", message := message, recoverable := false }
  else
    { code := "UNKNOWN", message := message, recoverable := true }

/-- `generateFeedback` on the failure path (returns before touching params). -/
def generateFeedbackFailure (action : String) (error : ActionError) : String :=
  "Failed to " ++ action ++ ": " ++ error.message

/-- `generateFeedback` on the success path.  For `type` the source reads
`params.text.slice(0, 20)`, which throws when `text` is absent — that
throw happens inside the outer try of `execute` and is caught there. -/
def generateFeedbackSuccess (action : String) (p : ActionParamsRec) :
    Except String String :=
  if action == "click" then
    .ok ("Clicked element at index " ++ optNatStr p.index)
  else if action == "type" then
    match p.text with
    | some t => .ok ("Typed \"" ++ strTake t 20 ++ "...\" into element")
    | none => .error "Cannot read properties of undefined (reading 'slice')"
  else if action == "select" then
    .ok ("Selected \"" ++ optStrOrUndefined p.value ++ "\" from dropdown")
  else if action == "scroll" then
    .ok ("Scrolled " ++ optStrOrUndefined p.direction)
  else if action == "navigate" then
    .ok ("Navigated to " ++ optStrOrUndefined p.url)
  else if action == "wait" then
    .ok ("Waited " ++ optNatStr p.duration ++ "ms")
  else
    .ok ("Executed " ++ action ++ " successfully")

/-- `if ('index' in params && typeof params.index === 'number')`. -/
def beforeSnap (env : ExecEnv) (p : ActionParamsRec) : Option ElementSnapshot :=
  match p.index with
  | some i => env.snapshotBefore i
  | none => none

/-- The body of `execute`'s try block after the before-snapshot: run the
action, take the after-snapshot (only when a before-snapshot exists), and
build the success feedback (which can itself throw, see above). -/
def executeAttempt (env : ExecEnv) (config : ActionExecutorConfig)
    (action : String) (p : ActionParamsRec) (before : Option ElementSnapshot) :
    Except String (Option ElementSnapshot × String) :=
  match executeAction env config action p with
  | .error e => .error e
  | .ok _ =>
    let after := match before, p.index with
      | some _, some i => env.snapshotAfter i
      | _, _ => none
    match generateFeedbackSuccess action p with
    | .error e => .error e
    | .ok fb => .ok (after, fb)

/-- `ActionExecutor.execute`: every outcome, including thrown errors from
any step, becomes a plain `ExecActionResult` (the catch block). -/
def executeModel (env : ExecEnv) (config : ActionExecutorConfig)
    (action : String) (p : ActionParamsRec) : ExecActionResult :=
  let before := beforeSnap env p
  match executeAttempt env config action p before with
  | .ok (after, verbalFeedback) =>
      { success := true, action := action, params := p, duration := env.elapsed,
        before := before, after := after, verbalFeedback := verbalFeedback }
  | .error msg =>
      let actionError := createError msg
      { success := false, action := action, params := p,
        error := some actionError, duration := env.elapsed, before := before,
        verbalFeedback := generateFeedbackFailure action actionError }

/-! ## Concrete demo inputs for witnesses -/

def demoSub : SubTask :=
  { id := "s1", description := "Click search button", action := "click" }

def demoChanges : ChangeReport :=
  { mutations := [], verbalFeedback := "", urlChanged := false,
    newUrl := none, titleChanged := false, newTitle := none }

def demoDom : LoopDom :=
  { url := "https://example.com/a", elements := [{ tag := "p", text := "hello" }] }

def envDoneRejected : LoopEnv :=
  { precheckVerified := false
    preDom := fun _ => demoDom
    decision := fun _ => Except.ok { action := "done", paramsJson := "\x7b\x7d" }
    verify := fun _ => false
    execResult := fun _ =>
      { success := true, action := "wait", paramsJson := "\x7b\x7d",
        verbalFeedback := "waited" }
    changes := fun _ => demoChanges
    postDom := fun _ => none }

def envNavChange : LoopEnv :=
  { precheckVerified := false
    preDom := fun _ => demoDom
    decision := fun _ => Except.ok { action := "navigate", paramsJson := "nav-params" }
    verify := fun _ => false
    execResult := fun _ =>
      { success := true, action := "navigate", paramsJson := "", verbalFeedback := "Navigated" }
    changes := fun _ => demoChanges
    postDom := fun _ => some { url := "https://example.com/b", elements := [] } }
def demoLoginSub : SubTask :=
  { id := "s2", description := "login to the site", action := "click" }
def envCF : LoopEnv :=
  { precheckVerified := false
    preDom := fun _ => demoDom
    decision := fun _ => Except.ok { action := "click", paramsJson := "p0" }
    verify := fun _ => false
    execResult := fun _ =>
      { success := false, action := "click", paramsJson := "p0",
        errMessage := some "Element not found at index 0",
        verbalFeedback := "Failed to click: Element not found at index 0" }
    changes := fun _ => demoChanges
    postDom := fun _ => none }
def stCF2 : LoopState :=
  { initialLoopState with consecutiveFailures := 2 }
def envOkStep : LoopEnv :=
  { precheckVerified := false
    preDom := fun _ => demoDom
    decision := fun _ => Except.ok { action := "click", paramsJson := "p1" }
    verify := fun _ => false
    execResult := fun _ =>
      { success := true, action := "click", paramsJson := "p1",
        verbalFeedback := "Clicked element at index 1" }
    changes := fun _ => demoChanges
    postDom := fun _ => none }
def envLLMDown : LoopEnv :=
  { envCF with decision := fun _ => Except.error "Error: fetch failed" }
def decC2 : Nat → ActionDecision :=
  fun i => { action := "click", paramsJson := "p" ++ toString i }
def envC2 : LoopEnv :=
  { precheckVerified := false
    preDom := fun _ => demoDom
    decision := fun i => Except.ok (decC2 i)
    verify := fun _ => false
    execResult := fun _ =>
      { success := true, action := "click", paramsJson := "p",
        verbalFeedback := "Clicked element" }
    changes := fun _ => demoChanges
    postDom := fun _ => some demoDom }


/-- A document whose only candidate element is a visible `div` with
`role="presentation"` — a role in neither recognized set. -/
def cRoleDoc : Doc :=
  { url := "https://example.com/widgets", title := "Widgets",
    body := .elem { tag := "body", rect := ⟨0, 0, 1280, 720⟩ }
      [.elem { tag := "div", attrs := [("role", "presentation")],
               rect := ⟨10, 10, 100, 20⟩ } [.text "decorative"]] }

/-- A document whose only candidate element is a visible `div` with the
recognized interactive role `button`. -/
def wRoleDoc : Doc :=
  { url := "https://example.com/widgets", title := "Widgets",
    body := .elem { tag := "body", rect := ⟨0, 0, 1280, 720⟩ }
      [.elem { tag := "div", attrs := [("role", "button")],
               rect := ⟨10, 10, 100, 20⟩ } [.text "Go"]] }

/-- A concrete execution environment where no element resolves and every
browser operation succeeds. -/
def demoExecEnv : ExecEnv where
  distillerGet := fun _ => none
  selectorGet := fun _ => none
  click := fun _ _ => .ok ()
  doubleClick := fun _ => .ok ()
  typeText := fun _ _ _ => .ok ()
  clear := fun _ => .ok ()
  select := fun _ _ => .ok ()
  check := fun _ => .ok ()
  uncheck := fun _ => .ok ()
  hover := fun _ => .ok ()
  scroll := fun _ _ => .ok ()
  scrollToElement := fun _ => .ok ()
  focus := fun _ => .ok ()
  press := fun _ _ => .ok ()
  wait := fun _ => .ok ()
  waitForSelector := fun _ _ _ => .ok ()
  navigate := fun _ => .ok ()
  goBack := .ok ()
  goForward := .ok ()
  refresh := .ok ()
  snapshotBefore := fun _ => none
  snapshotAfter := fun _ => none
  elapsed := 7

/-! # Theorems -/

/-- C3: when the decision backend returns a `done` claim and the independent
completion check (`verifySubtaskCompletion`) does not corroborate it, the
iteration does not terminate the loop: it continues to the next iteration
with exactly one verification-failure note appended to the action history
(and `steps` unchanged, the stagnation counter bumped). -/
theorem doneClaim_unverified_rejected
    (env : LoopEnv) (subtask : SubTask) (maxSteps fuel step : Nat) (st : LoopState)
    (d : ActionDecision)
    (hsc : updatedSame st step (computeStateHash (env.preDom step)) < 4)
    (hdec : env.decision step = Except.ok d)
    (hdone : d.action = "done")
    (hver : env.verify step = false) :
    runFrom env subtask maxSteps (fuel + 1) step st =
      runFrom env subtask maxSteps fuel (step + 1)
        { st with
          actionHistory := st.actionHistory ++ [verificationFailedNote],
          sameStateCount := updatedSame st step (computeStateHash (env.preDom step)) + 1,
          lastStateHash := updatedLast st step (computeStateHash (env.preDom step)) } := by
  have hne : ¬ (4 ≤ updatedSame st step (computeStateHash (env.preDom step))) :=
    Nat.not_le.mpr hsc
  simp only [runFrom, stepIter, hdec, hdone, hver]
  rw [if_neg hne]
  simp

/-- Witness for C3 at a concrete environment. -/
theorem doneClaim_unverified_rejected_witness :
    runFrom envDoneRejected demoSub 10 (5 + 1) 0 initialLoopState =
      runFrom envDoneRejected demoSub 10 5 (0 + 1)
        { initialLoopState with
          actionHistory := initialLoopState.actionHistory ++ [verificationFailedNote],
          sameStateCount :=
            updatedSame initialLoopState 0 (computeStateHash (envDoneRejected.preDom 0)) + 1,
          lastStateHash :=
            updatedLast initialLoopState 0 (computeStateHash (envDoneRejected.preDom 0)) } :=
  doneClaim_unverified_rejected envDoneRejected demoSub 10 5 0 initialLoopState
    _ (by decide) rfl rfl rfl



/-- C4: after executing an action, if the page URL changed and
`isNavigationRelatedAction` holds for the subtask (a navigation-intent
keyword such as "login" in the description, or a direct `navigate` action),
the iteration returns `success: true` immediately.  The result is a fixed
success value independent of the completion-check collaborators
(`env.verify` and `checkCompletion` are unconstrained and do not occur in
the conclusion), so the completion check is never consulted; the step is
also not pushed onto `steps`. -/
theorem implicitSuccess_on_navigation_urlChange
    (env : LoopEnv) (subtask : SubTask) (maxSteps fuel step : Nat) (st : LoopState)
    (d : ActionDecision)
    (hsc : updatedSame st step (computeStateHash (env.preDom step)) < 4)
    (hdec : env.decision step = Except.ok d)
    (hdone : d.action ≠ "done")
    (hfail : d.action ≠ "fail")
    (hpc : pageChangedFlag (env.postDom step) (env.preDom step).url = true)
    (hnav : isNavigationRelatedAction subtask d.action = true) :
    runFrom env subtask maxSteps (fuel + 1) step st =
      createResult subtask.id true st.steps st.retryCount none := by
  have hne : ¬ (4 ≤ updatedSame st step (computeStateHash (env.preDom step))) :=
    Nat.not_le.mpr hsc
  simp only [runFrom, stepIter, hdec, hpc, hnav]
  rw [if_neg hne]
  simp [hdone, hfail]

/-- Witness for C4: a `navigate` action under a "login" subtask with a URL
change returns immediate success. -/
theorem implicitSuccess_on_navigation_urlChange_witness :
    runFrom envNavChange demoLoginSub 10 (9 + 1) 0 initialLoopState =
      createResult demoLoginSub.id true initialLoopState.steps initialLoopState.retryCount none :=
  implicitSuccess_on_navigation_urlChange envNavChange demoLoginSub 10 9 0 initialLoopState
    _ (by decide) rfl (by decide) (by decide) (by decide) (by decide)




/-- C5: (a) once an executed action fails with the consecutive-failure
counter already at 2 (three consecutive failures), the iteration returns a
structured failure result with `error.code = "CONSECUTIVE_FAILURES"` and
executes no further action — the loop function returns instead of
recursing, and being a total function it cannot throw; (b) a successful
action resets the consecutive-failure counter to 0 and the loop continues. -/
theorem consecutiveFailures_circuitBreaker
    (env : LoopEnv) (subtask : SubTask) (maxSteps fuel step : Nat) (st : LoopState) :
    (∀ d : ActionDecision,
       updatedSame st step (computeStateHash (env.preDom step)) < 4 →
       env.decision step = Except.ok d →
       d.action ≠ "done" → d.action ≠ "fail" →
       pageChangedFlag (env.postDom step) (env.preDom step).url = false →
       (env.execResult step).success = false →
       2 ≤ st.consecutiveFailures →
       runFrom env subtask maxSteps (fuel + 1) step st =
         createResult subtask.id false (st.steps ++ [enrichedAt env step])
           (st.retryCount + 1)
           (some { code := "CONSECUTIVE_FAILURES",
                   message := toString (st.consecutiveFailures + 1) ++ " consecutive action failures. Last error: " ++ jsOrO (env.execResult step).errMessage "unknown",
                   step := step,
                   lastAction := some (enrichedAt env step) })) ∧
    (∀ d : ActionDecision,
       updatedSame st step (computeStateHash (env.preDom step)) < 4 →
       env.decision step = Except.ok d →
       d.action ≠ "done" → d.action ≠ "fail" →
       isDuplicateAction d st.actionHistory = false →
       pageChangedFlag (env.postDom step) (env.preDom step).url = false →
       (env.execResult step).success = true →
       checkCompletion subtask (env.preDom step) (st.steps ++ [enrichedAt env step]) = false →
       runFrom env subtask maxSteps (fuel + 1) step st =
         runFrom env subtask maxSteps fuel (step + 1)
           { steps := st.steps ++ [enrichedAt env step],
             actionHistory := st.actionHistory ++ [attemptAt env step d],
             retryCount := st.retryCount,
             consecutiveFailures := 0,
             sameStateCount := updatedSame st step (computeStateHash (env.preDom step)),
             lastStateHash := updatedLast st step (computeStateHash (env.preDom step)) }) := by
  constructor
  · intro d hsc hdec hdone hfail hpc hexec hcf
    have hne : ¬ (4 ≤ updatedSame st step (computeStateHash (env.preDom step))) :=
      Nat.not_le.mpr hsc
    have hcf3 : 3 ≤ st.consecutiveFailures + 1 := Nat.succ_le_succ hcf
    simp only [runFrom, stepIter, hdec, hpc, hexec]
    rw [if_neg hne]
    simp [hdone, hfail, hcf3]
  · intro d hsc hdec hdone hfail hdup hpc hexec hcomp
    have hne : ¬ (4 ≤ updatedSame st step (computeStateHash (env.preDom step))) :=
      Nat.not_le.mpr hsc
    simp only [runFrom, stepIter, hdec, hpc, hexec, hdup]
    rw [if_neg hne]
    simp [hdone, hfail, hcomp]

/-- Witness for C5: both conjuncts applied at concrete environments
(a third consecutive failure terminates with `CONSECUTIVE_FAILURES`;
a success resets the counter and continues). -/
theorem consecutiveFailures_circuitBreaker_witness :
    (runFrom envCF demoSub 10 (9 + 1) 0 stCF2 =
       createResult demoSub.id false (stCF2.steps ++ [enrichedAt envCF 0])
         (stCF2.retryCount + 1)
         (some { code := "CONSECUTIVE_FAILURES",
                 message := toString (stCF2.consecutiveFailures + 1) ++ " consecutive action failures. Last error: " ++ jsOrO (envCF.execResult 0).errMessage "unknown",
                 step := 0,
                 lastAction := some (enrichedAt envCF 0) })) ∧
    (runFrom envOkStep demoSub 10 (9 + 1) 0 initialLoopState =
       runFrom envOkStep demoSub 10 9 (0 + 1)
         { steps := initialLoopState.steps ++ [enrichedAt envOkStep 0],
           actionHistory := initialLoopState.actionHistory ++
             [attemptAt envOkStep 0 { action := "click", paramsJson := "p1" }],
           retryCount := initialLoopState.retryCount,
           consecutiveFailures := 0,
           sameStateCount := updatedSame initialLoopState 0 (computeStateHash (envOkStep.preDom 0)),
           lastStateHash := updatedLast initialLoopState 0 (computeStateHash (envOkStep.preDom 0)) }) :=
  ⟨(consecutiveFailures_circuitBreaker envCF demoSub 10 9 0 stCF2).1
      _ (by decide) rfl (by decide) (by decide) (by decide) (by decide) (by decide),
   (consecutiveFailures_circuitBreaker envOkStep demoSub 10 9 0 initialLoopState).2
      _ (by decide) rfl (by decide) (by decide) (by decide) (by decide) (by decide) (by decide)⟩

/-- C6 counterexample: a decision-backend failure (a rejected
`llm.complete` call, modelled as `Except.error`) is *not* converted into
the `wait` fallback: `decideAction` only wraps `JSON.parse` in its
try/catch, so the transport error propagates. -/
theorem llmFailure_propagates_counterexample :
    decideActionFromResponse (Except.error "LLM request failed") (fun _ => none) ≠
      Except.ok waitFallbackDecision := by
  simp [decideActionFromResponse]

/-- C6 (amended): (a) when the backend's *content* cannot be parsed as an
action decision, `decideAction` falls back to the no-op
`wait {duration: 1000}` decision instead of propagating the parse error;
(b) a backend *transport* failure instead reaches the outer catch of
`executeSubTask`, which terminates the subtask with a structured
`ACTION_FAILED` failure result (still without throwing). -/
theorem unparsable_falls_back_to_wait :
    (∀ (content : String) (parseFn : String → Option ActionDecision),
        parseFn content = none →
        decideActionFromResponse (Except.ok content) parseFn = Except.ok waitFallbackDecision) ∧
    (∀ (env : LoopEnv) (subtask : SubTask) (maxSteps fuel step : Nat) (st : LoopState)
        (errMsg : String),
        updatedSame st step (computeStateHash (env.preDom step)) < 4 →
        env.decision step = Except.error errMsg →
        runFrom env subtask maxSteps (fuel + 1) step st =
          createResult subtask.id false st.steps st.retryCount
            (some { code := "ACTION_FAILED", message := errMsg,
                    step := st.steps.length })) := by
  constructor
  · intro content parseFn hparse
    simp [decideActionFromResponse, hparse]
  · intro env subtask maxSteps fuel step st errMsg hsc hdec
    have hne : ¬ (4 ≤ updatedSame st step (computeStateHash (env.preDom step))) :=
      Nat.not_le.mpr hsc
    simp only [runFrom, stepIter, hdec]
    rw [if_neg hne]


/-- Witness for the amended C6: concrete unparsable content falls back to
`wait`, and a concrete transport failure yields `ACTION_FAILED`. -/
theorem unparsable_falls_back_to_wait_witness :
    (decideActionFromResponse (Except.ok "I cannot help with that") (fun _ => none) =
       Except.ok waitFallbackDecision) ∧
    (runFrom envLLMDown demoSub 10 (9 + 1) 0 initialLoopState =
       createResult demoSub.id false initialLoopState.steps initialLoopState.retryCount
         (some { code := "ACTION_FAILED", message := "Error: fetch failed",
                 step := initialLoopState.steps.length })) :=
  ⟨unparsable_falls_back_to_wait.1 "I cannot help with that" (fun _ => none) rfl,
   unparsable_falls_back_to_wait.2 envLLMDown demoSub 10 9 0 initialLoopState
     "Error: fetch failed" (by decide) rfl⟩

/-! ## Iteration lemmas shared by the loop proofs -/

theorem runFrom_step_success
    (env : LoopEnv) (subtask : SubTask) (maxSteps fuel step : Nat) (st : LoopState)
    (d : ActionDecision)
    (hsc : updatedSame st step (computeStateHash (env.preDom step)) < 4)
    (hdec : env.decision step = Except.ok d)
    (hdone : d.action ≠ "done")
    (hfail : d.action ≠ "fail")
    (hdup : isDuplicateAction d st.actionHistory = false)
    (hpc : pageChangedFlag (env.postDom step) (env.preDom step).url = false)
    (hexec : (env.execResult step).success = true)
    (hcomp : checkCompletion subtask (env.preDom step) (st.steps ++ [enrichedAt env step]) = false) :
    runFrom env subtask maxSteps (fuel + 1) step st =
      runFrom env subtask maxSteps fuel (step + 1)
        { steps := st.steps ++ [enrichedAt env step],
          actionHistory := st.actionHistory ++ [attemptAt env step d],
          retryCount := st.retryCount,
          consecutiveFailures := 0,
          sameStateCount := updatedSame st step (computeStateHash (env.preDom step)),
          lastStateHash := updatedLast st step (computeStateHash (env.preDom step)) } := by
  have hne : ¬ (4 ≤ updatedSame st step (computeStateHash (env.preDom step))) :=
    Nat.not_le.mpr hsc
  simp only [runFrom, stepIter, hdec, hpc, hexec, hdup]
  rw [if_neg hne]
  simp [hdone, hfail, hcomp]

theorem runFrom_step_noProgress
    (env : LoopEnv) (subtask : SubTask) (maxSteps fuel step : Nat) (st : LoopState)
    (hsc : 4 ≤ updatedSame st step (computeStateHash (env.preDom step))) :
    runFrom env subtask maxSteps (fuel + 1) step st =
      createResult subtask.id false st.steps st.retryCount
        (some { code := "NO_PROGRESS",
                message := "No progress after " ++ toString (updatedSame st step (computeStateHash (env.preDom step))) ++ " consecutive steps. The subtask may be impossible or the approach is wrong.",
                step := st.steps.length }) := by
  simp only [runFrom, stepIter]
  rw [if_pos hsc]

/-- C2: if every observation of the loop yields the same state fingerprint
(`preDom` constant, so the hash is unchanged at every step), decisions are
ordinary distinct actions that succeed, and no completion heuristic fires,
then for any configured cap of the form `k + 5` the run terminates with
`success: false`, `error.code = "NO_PROGRESS"`, exactly 4 executed steps
(the stagnation counter counts the 4 consecutive unchanged-fingerprint
steps), `error.step = 4`, and the step count never exceeds the cap. -/
theorem noProgress_fourStagnantSteps_terminates
    (env : LoopEnv) (subtask : SubTask) (k : Nat) (dec : Nat → ActionDecision)
    (hpre : env.precheckVerified = false)
    (hconst : ∀ i, env.preDom i = env.preDom 0)
    (hpost : ∀ i, env.postDom i = some (env.preDom i))
    (hdec : ∀ i, env.decision i = Except.ok (dec i))
    (hact : ∀ i, (dec i).action = "click")
    (hdist : ∀ j, j ≤ 4 → ∀ i, i < j → (dec i).paramsJson ≠ (dec j).paramsJson)
    (hexec : ∀ i, (env.execResult i).success = true)
    (hfb : ∀ i, completionPhrases.any
      (fun p => strContains (jsToLower (enrichedAt env i).verbalFeedback) p) = false)
    (hverif : jsTruthyS subtask.verification = false) :
    executeSubTask env subtask (k + 5) =
      createResult subtask.id false
        [enrichedAt env 0, enrichedAt env 1, enrichedAt env 2, enrichedAt env 3] 0
        (some { code := "NO_PROGRESS",
                message := "No progress after 4 consecutive steps. The subtask may be impossible or the approach is wrong.",
                step := 4 }) ∧
    (executeSubTask env subtask (k + 5)).steps.length ≤ k + 5 := by
  have hdone : ∀ i, (dec i).action ≠ "done" := by intro i; rw [hact i]; decide
  have hfail : ∀ i, (dec i).action ≠ "fail" := by intro i; rw [hact i]; decide
  have hpc : ∀ i, pageChangedFlag (env.postDom i) (env.preDom i).url = false := by
    intro i; simp [hpost i, pageChangedFlag]
  have hmain : executeSubTask env subtask (k + 5) =
      createResult subtask.id false
        [enrichedAt env 0, enrichedAt env 1, enrichedAt env 2, enrichedAt env 3] 0
        (some { code := "NO_PROGRESS",
                message := "No progress after 4 consecutive steps. The subtask may be impossible or the approach is wrong.",
                step := 4 }) := by
    calc executeSubTask env subtask (k + 5)
        = runFrom env subtask (k + 5) (k + 5) 0 initialLoopState := by
          simp [executeSubTask, hpre]
      _ = runFrom env subtask (k + 5) (k + 4) 1
            { steps := [enrichedAt env 0],
              actionHistory := [attemptAt env 0 (dec 0)],
              retryCount := 0, consecutiveFailures := 0, sameStateCount := 0,
              lastStateHash := computeStateHash (env.preDom 0) } :=
        (runFrom_step_success env subtask (k + 5) (k + 4) 0 initialLoopState (dec 0)
          (by simp [updatedSame, initialLoopState])
          (hdec 0) (hdone 0) (hfail 0)
          (by simp [isDuplicateAction, initialLoopState])
          (hpc 0) (hexec 0)
          (by simp [checkCompletion, initialLoopState, List.getLast?_concat, hfb 0, hverif])).trans
        (by simp [initialLoopState, updatedSame, updatedLast])
      _ = runFrom env subtask (k + 5) (k + 3) 2
            { steps := [enrichedAt env 0, enrichedAt env 1],
              actionHistory := [attemptAt env 0 (dec 0), attemptAt env 1 (dec 1)],
              retryCount := 0, consecutiveFailures := 0, sameStateCount := 1,
              lastStateHash := computeStateHash (env.preDom 0) } :=
        (runFrom_step_success env subtask (k + 5) (k + 3) 1 _ (dec 1)
          (by simp [hconst 1, updatedSame])
          (hdec 1) (hdone 1) (hfail 1)
          (by simp [isDuplicateAction, attemptAt, hact 0, hact 1,
                beq_eq_false_iff_ne.mpr (hdist 1 (by omega) 0 (by omega))])
          (hpc 1) (hexec 1)
          (by simp [checkCompletion, List.getLast?_concat, hfb 1, hverif])).trans
        (by simp [hconst 1, updatedSame, updatedLast])
      _ = runFrom env subtask (k + 5) (k + 2) 3
            { steps := [enrichedAt env 0, enrichedAt env 1, enrichedAt env 2],
              actionHistory := [attemptAt env 0 (dec 0), attemptAt env 1 (dec 1),
                attemptAt env 2 (dec 2)],
              retryCount := 0, consecutiveFailures := 0, sameStateCount := 2,
              lastStateHash := computeStateHash (env.preDom 0) } :=
        (runFrom_step_success env subtask (k + 5) (k + 2) 2 _ (dec 2)
          (by simp [hconst 2, updatedSame])
          (hdec 2) (hdone 2) (hfail 2)
          (by simp [isDuplicateAction, attemptAt, hact 0, hact 1, hact 2,
                beq_eq_false_iff_ne.mpr (hdist 2 (by omega) 0 (by omega)),
                beq_eq_false_iff_ne.mpr (hdist 2 (by omega) 1 (by omega))])
          (hpc 2) (hexec 2)
          (by simp [checkCompletion, List.getLast?_concat, hfb 2, hverif])).trans
        (by simp [hconst 2, updatedSame, updatedLast])
      _ = runFrom env subtask (k + 5) (k + 1) 4
            { steps := [enrichedAt env 0, enrichedAt env 1, enrichedAt env 2,
                enrichedAt env 3],
              actionHistory := [attemptAt env 0 (dec 0), attemptAt env 1 (dec 1),
                attemptAt env 2 (dec 2), attemptAt env 3 (dec 3)],
              retryCount := 0, consecutiveFailures := 0, sameStateCount := 3,
              lastStateHash := computeStateHash (env.preDom 0) } :=
        (runFrom_step_success env subtask (k + 5) (k + 1) 3 _ (dec 3)
          (by simp [hconst 3, updatedSame])
          (hdec 3) (hdone 3) (hfail 3)
          (by simp [isDuplicateAction, attemptAt, hact 0, hact 1, hact 2, hact 3,
                beq_eq_false_iff_ne.mpr (hdist 3 (by omega) 0 (by omega)),
                beq_eq_false_iff_ne.mpr (hdist 3 (by omega) 1 (by omega)),
                beq_eq_false_iff_ne.mpr (hdist 3 (by omega) 2 (by omega))])
          (hpc 3) (hexec 3)
          (by simp [checkCompletion, List.getLast?_concat, hfb 3, hverif])).trans
        (by simp [hconst 3, updatedSame, updatedLast])
      _ = createResult subtask.id false
            [enrichedAt env 0, enrichedAt env 1, enrichedAt env 2, enrichedAt env 3] 0
            (some { code := "NO_PROGRESS",
                    message := "No progress after 4 consecutive steps. The subtask may be impossible or the approach is wrong.",
                    step := 4 }) :=
        (runFrom_step_noProgress env subtask (k + 5) k 4 _
          (by simp [hconst 4, updatedSame])).trans
        (by simp [hconst 4, updatedSame, createResult]; rfl)
  refine ⟨hmain, ?_⟩
  rw [hmain]
  simp [createResult]



/-- Witness for C2: a concrete always-stagnant environment with cap 5. -/
theorem noProgress_fourStagnantSteps_terminates_witness :
    executeSubTask envC2 demoSub (0 + 5) =
      createResult demoSub.id false
        [enrichedAt envC2 0, enrichedAt envC2 1, enrichedAt envC2 2, enrichedAt envC2 3] 0
        (some { code := "NO_PROGRESS",
                message := "No progress after 4 consecutive steps. The subtask may be impossible or the approach is wrong.",
                step := 4 }) ∧
    (executeSubTask envC2 demoSub (0 + 5)).steps.length ≤ 0 + 5 :=
  noProgress_fourStagnantSteps_terminates envC2 demoSub 0 decC2
    rfl (fun _ => rfl) (fun _ => rfl) (fun _ => rfl) (fun _ => rfl)
    (by decide) (fun _ => rfl)
    (fun _ => (by decide :
      (completionPhrases.any fun p =>
        strContains (jsToLower (enrichedAt envC2 0).verbalFeedback) p) = false))
    (by decide)

/-! ## C1: the text-mode element cap -/

theorem paraText_data (i : Nat) :
    (paraText i).data = List.replicate 5 'p' ++ List.replicate i 'q' := rfl

theorem paraText_length (i : Nat) : (paraText i).length = 5 + i := by
  simp [paraText, String.length]
  omega

theorem paraText_inj {i j : Nat} (h : paraText i = paraText j) : i = j := by
  have := congrArg String.length h
  rw [paraText_length, paraText_length] at this
  omega

theorem paraText_noWs (i : Nat) : ∀ c ∈ (paraText i).data, isWsChar c = false := by
  intro c hc
  rw [paraText_data] at hc
  rcases List.mem_append.mp hc with h | h
  · rw [List.eq_of_mem_replicate h]; decide
  · rw [List.eq_of_mem_replicate h]; decide

theorem collapseWsAux_noWs (l : List Char) (h : ∀ c ∈ l, isWsChar c = false) :
    ∀ b, collapseWsAux b l = l := by
  induction l with
  | nil => intro b; rfl
  | cons c rest ih =>
    intro b
    have hc : isWsChar c = false := h c (List.mem_cons_self c rest)
    have hrest : ∀ x ∈ rest, isWsChar x = false :=
      fun x hx => h x (List.mem_cons_of_mem c hx)
    simp [collapseWsAux, hc, ih hrest]

theorem dropWhileWs_noWs (l : List Char) (h : ∀ c ∈ l, isWsChar c = false) :
    l.dropWhile isWsChar = l := by
  cases l with
  | nil => rfl
  | cons c rest =>
    refine List.dropWhile_cons_of_neg ?_
    simp [h c (List.mem_cons_self c rest)]

theorem trimChars_noWs (l : List Char) (h : ∀ c ∈ l, isWsChar c = false) :
    trimChars l = l := by
  unfold trimChars
  rw [dropWhileWs_noWs l h]
  rw [dropWhileWs_noWs l.reverse (fun c hc => h c (List.mem_reverse.mp hc))]
  exact List.reverse_reverse l

theorem normalizeWhitespace_paraText (i : Nat) :
    normalizeWhitespace (paraText i) = paraText i := by
  unfold normalizeWhitespace collapseWs
  rw [collapseWsAux_noWs _ (paraText_noWs i) false,
      trimChars_noWs _ (paraText_noWs i)]

theorem textContent_paraNode (i : Nat) : (paraNode i).textContent = paraText i := by
  show paraText i ++ "" = paraText i
  exact String.append_empty _

theorem elemPaths_paraNode (i : Nat) : elemPaths (paraNode i) = [[]] := rfl

theorem elemPathsList_paras :
    ∀ (js : List Nat) (k : Nat),
      elemPathsList k (js.map paraNode) = (List.range' k js.length).map (fun i => [i])
  | [], _ => rfl
  | j :: rest, k => by
    simp only [List.map_cons, elemPathsList, elemPaths_paraNode, List.length_cons,
      List.range'_succ, List.map_map]
    rw [elemPathsList_paras rest (k + 1)]
    rfl

theorem elemPaths_docParas (n : Nat) :
    elemPaths (docParas n).body = [] :: (List.range n).map (fun i => [i]) := by
  show [] :: elemPathsList 0 ((List.range n).map paraNode) = _
  rw [elemPathsList_paras, List.range_eq_range' n, List.length_range']

theorem getNode_docParas (n i : Nat) (h : i < n) :
    getNode? (docParas n).body [i] = some (paraNode i) := by
  show (match ((List.range n).map paraNode).get? i with
        | some c => getNode? c []
        | none => none) = some (paraNode i)
  rw [List.get?_map, List.get?_range h]
  rfl

theorem elemAt_docParas (n i : Nat) (h : i < n) :
    elemAt? (docParas n) [i] = some { tag := "p" } := by
  unfold elemAt?
  rw [getNode_docParas n i h]
  rfl

theorem elemAt_docParas_body (n : Nat) :
    elemAt? (docParas n) [] = some { tag := "body" } := rfl

theorem mainContentPath_docParas (n : Nat) : mainContentPath (docParas n) = none := by
  unfold mainContentPath docElemPaths
  rw [elemPaths_docParas]
  refine List.find?_eq_none.mpr ?_
  intro p hp
  rcases List.mem_cons.mp hp with h | h
  · subst h; rw [elemAt_docParas_body]; decide
  · rcases List.mem_map.mp h with ⟨i, hi, rfl⟩
    rw [elemAt_docParas n i (List.mem_range.mp hi)]
    decide

theorem tagQuery_docParas_p (n : Nat) :
    tagQuery (docParas n) [] "p" = (List.range n).map (fun i => [i]) := by
  unfold tagQuery descendantsOf
  show (((elemPaths (docParas n).body).drop 1).map (fun p => [] ++ p)).filter _ = _
  rw [elemPaths_docParas]
  simp only [List.drop_succ_cons, List.drop_zero, List.nil_append, List.map_id_fun',
    id_eq]
  refine List.filter_eq_self.mpr ?_
  intro p hp
  rcases List.mem_map.mp hp with ⟨i, hi, rfl⟩
  rw [elemAt_docParas n i (List.mem_range.mp hi)]
  rfl

theorem tagQuery_docParas_ne (n : Nat) (t : String) (ht : t ≠ "p") :
    tagQuery (docParas n) [] t = [] := by
  unfold tagQuery descendantsOf
  show (((elemPaths (docParas n).body).drop 1).map (fun p => [] ++ p)).filter _ = _
  rw [elemPaths_docParas]
  simp only [List.drop_succ_cons, List.drop_zero, List.nil_append, List.map_id_fun',
    id_eq]
  refine List.filter_eq_nil.mpr ?_
  intro p hp
  rcases List.mem_map.mp hp with ⟨i, hi, rfl⟩
  rw [elemAt_docParas n i (List.mem_range.mp hi)]
  simpa using fun h => ht h.symm

theorem docTagQuery_docParas_p (n : Nat) :
    docTagQuery (docParas n) "p" = (List.range n).map (fun i => [i]) := by
  unfold docTagQuery docElemPaths
  rw [elemPaths_docParas]
  rw [List.filter_cons]
  have hbody : ((elemAt? (docParas n) []).map (fun d => d.tag == "p")).getD false = false := by
    rw [elemAt_docParas_body]; rfl
  rw [hbody]
  simp only [Bool.false_eq_true, if_false]
  refine List.filter_eq_self.mpr ?_
  intro p hp
  rcases List.mem_map.mp hp with ⟨i, hi, rfl⟩
  rw [elemAt_docParas n i (List.mem_range.mp hi)]
  rfl

theorem isInsideExcluded_docParas (n i : Nat) (h : i < n) :
    isInsideExcluded (docParas n) [i] = false := by
  unfold isInsideExcluded selfAndAncestorPaths
  simp only [List.length_cons, List.length_nil]
  show ([[i]].any fun q => ((elemAt? (docParas n) q).map nodeExcludedMark).getD false) = false
  simp only [List.any_cons, List.any_nil, Bool.or_false]
  rw [elemAt_docParas n i h]
  rfl

theorem expectedEntries_length :
    ∀ (js : List Nat) (idx0 : Nat), (expectedEntries idx0 js).length = js.length
  | [], _ => rfl
  | _ :: rest, idx0 => by
    simp [expectedEntries, expectedEntries_length rest (idx0 + 1)]

theorem ptwExpectedEntries_length :
    ∀ (js : List Nat) (idx0 : Nat), (ptwExpectedEntries idx0 js).length = js.length
  | [], _ => rfl
  | _ :: rest, idx0 => by
    simp [ptwExpectedEntries, ptwExpectedEntries_length rest (idx0 + 1)]

theorem paraText_ne_empty (j : Nat) : (paraText j == "") = false := by
  refine beq_eq_false_iff_ne.mpr ?_
  intro h
  have := congrArg String.length h
  rw [paraText_length] at this
  simp [String.length] at this

theorem paraText_not_seen (done : List Nat) (j : Nat) (h : j ∉ done) :
    ((done.map paraText).contains (paraText j)) = false := by
  have : paraText j ∉ done.map paraText := by
    intro hmem
    rcases List.mem_map.mp hmem with ⟨d, hd, he⟩
    exact h (paraText_inj he ▸ hd)
  simpa using this

/-- Evaluating one `textOnlyVisit` step on a fresh paragraph. -/
theorem textOnlyVisit_paraStep (n j : Nat) (hj : j < n)
    (done : List Nat) (hnew : j ∉ done) (C : List TextElement) (idx0 : Nat) :
    textOnlyVisit (docParas n) ⟨C, done.map paraText, idx0⟩ [j] =
      ⟨C ++ [{ content := truncateText (paraText j), tag := "p", index := idx0 }],
       (done ++ [j]).map paraText, idx0 + 1⟩ := by
  unfold textOnlyVisit
  rw [isInsideExcluded_docParas n j hj, getNode_docParas n j hj]
  simp only [Bool.false_eq_true, if_false, DomNode.dataOf]
  rw [textContent_paraNode, normalizeWhitespace_paraText]
  rw [paraText_ne_empty, paraText_length]
  rw [decide_eq_false (by omega : ¬ (5 + j < 5))]
  rw [paraText_not_seen done j hnew]
  simp [paraNode]

theorem textOnly_fold (n : Nat) (js : List Nat) :
    ∀ (done : List Nat) (seen : List String) (C : List TextElement) (idx0 : Nat),
      (∀ j ∈ js, j < n) → js.Nodup → (∀ j ∈ js, j ∉ done) →
      seen = done.map paraText →
      (js.map (fun j => [j])).foldl (textOnlyVisit (docParas n)) ⟨C, seen, idx0⟩ =
        ⟨C ++ expectedEntries idx0 js, (done ++ js).map paraText, idx0 + js.length⟩ := by
  induction js with
  | nil =>
    intro done seen C idx0 _ _ _ hseen
    simp [expectedEntries, hseen]
  | cons j rest ih =>
    intro done seen C idx0 hb hnd hdisj hseen
    rw [List.map_cons, List.foldl_cons, hseen]
    rw [textOnlyVisit_paraStep n j (hb j (List.mem_cons_self j rest)) done
      (hdisj j (List.mem_cons_self j rest)) C idx0]
    rw [ih (done ++ [j]) _ _ (idx0 + 1)
      (fun r hr => hb r (List.mem_cons_of_mem j hr))
      (List.nodup_cons.mp hnd).2
      (by
        intro r hr hmem
        rcases List.mem_append.mp hmem with h | h
        · exact hdisj r (List.mem_cons_of_mem j hr) h
        · rw [List.mem_singleton.mp h] at hr
          exact (List.nodup_cons.mp hnd).1 hr)
      rfl]
    simp [expectedEntries]
    omega

/-- Evaluating one Playwright inner-loop step on a fresh paragraph. -/
theorem ptwTextInner_paraStep (n max j : Nat) (hj : j < n)
    (done : List Nat) (hnew : j ∉ done) (C : List TextElement) (idx0 : Nat)
    (ps : List (List Nat)) :
    ptwTextInner (docParas n) max "p" ([j] :: ps) ⟨C, done.map paraText, idx0⟩ =
      (let acc1 : TextAcc :=
        ⟨C ++ [{ content := ptwTruncate (paraText j), tag := "p", index := idx0 }],
         (done ++ [j]).map paraText, idx0 + 1⟩
       if max ≤ acc1.content.length then acc1
       else ptwTextInner (docParas n) max "p" ps acc1) := by
  conv_lhs => rw [ptwTextInner]
  rw [getNode_docParas n j hj]
  simp only
  rw [textContent_paraNode, normalizeWhitespace_paraText]
  rw [paraText_ne_empty, paraText_length]
  rw [decide_eq_false (by omega : ¬ (5 + j < 5))]
  rw [paraText_not_seen done j hnew]
  simp [List.length_append]

theorem ptw_fold (n max : Nat) (js : List Nat) :
    ∀ (done : List Nat) (seen : List String) (C : List TextElement) (idx0 : Nat),
      (∀ j ∈ js, j < n) → js.Nodup → (∀ j ∈ js, j ∉ done) →
      seen = done.map paraText → C.length < max →
      ptwTextInner (docParas n) max "p" (js.map (fun j => [j])) ⟨C, seen, idx0⟩ =
        ⟨C ++ ptwExpectedEntries idx0 (js.take (max - C.length)),
         (done ++ js.take (max - C.length)).map paraText,
         idx0 + (js.take (max - C.length)).length⟩ := by
  induction js with
  | nil =>
    intro done seen C idx0 _ _ _ hseen _
    simp [ptwTextInner, ptwExpectedEntries, hseen]
  | cons j rest ih =>
    intro done seen C idx0 hb hnd hdisj hseen hlt
    rw [List.map_cons, hseen]
    rw [ptwTextInner_paraStep n max j (hb j (List.mem_cons_self j rest)) done
      (hdisj j (List.mem_cons_self j rest)) C idx0]
    simp only [List.length_append, List.length_cons, List.length_nil]
    by_cases hstop : max ≤ C.length + 1
    · have hm : max - C.length = 1 := by omega
      rw [if_pos (by simpa using hstop), hm]
      simp [ptwExpectedEntries]
    · have hm : max - C.length = (max - (C.length + 1)) + 1 := by omega
      rw [if_neg (by simpa using hstop)]
      rw [ih (done ++ [j]) _ _ (idx0 + 1)
        (fun r hr => hb r (List.mem_cons_of_mem j hr))
        (List.nodup_cons.mp hnd).2
        (by
          intro r hr hmem
          rcases List.mem_append.mp hmem with h | h
          · exact hdisj r (List.mem_cons_of_mem j hr) h
          · rw [List.mem_singleton.mp h] at hr
            exact (List.nodup_cons.mp hnd).1 hr)
        rfl
        (by simp; omega)]
      rw [hm]
      simp [ptwExpectedEntries, List.take_cons]
      omega

theorem ptwTextInner_le (doc : Doc) (max : Nat) (tag : String) :
    ∀ (ps : List (List Nat)) (acc : TextAcc), acc.content.length < max →
      (ptwTextInner doc max tag ps acc).content.length ≤ max := by
  intro ps
  induction ps with
  | nil => intro acc h; exact Nat.le_of_lt h
  | cons p rest ih =>
    intro acc h
    rw [ptwTextInner]
    cases getNode? doc.body p with
    | none => exact ih acc h
    | some n =>
      simp only
      split
      · exact ih acc h
      · split
        · next hstop =>
          simp only [List.length_append, List.length_cons, List.length_nil] at hstop ⊢
          omega
        · next hgo =>
          refine ih _ ?_
          simp only [List.length_append, List.length_cons, List.length_nil] at hgo ⊢
          omega

theorem ptwTextRun_le (doc : Doc) (max : Nat) :
    ∀ (tags : List String) (acc : TextAcc), acc.content.length < max →
      (ptwTextRun doc max tags acc).content.length ≤ max := by
  intro tags
  induction tags with
  | nil => intro acc h; exact Nat.le_of_lt h
  | cons tag rest ih =>
    intro acc h
    rw [ptwTextRun]
    split
    · next hstop => exact ptwTextInner_le doc max tag _ acc h
    · next hgo =>
      refine ih _ ?_
      omega

theorem textOnlyTagStep_ne (n : Nat) (t : String) (ht : t ≠ "p") (acc : TextAcc) :
    textOnlyTagStep (docParas n) [] acc t = acc := by
  unfold textOnlyTagStep
  rw [tagQuery_docParas_ne n t ht, List.foldl_nil]

theorem textOnly_foldTags_noP (n : Nat) (ts : List String) (hts : ∀ t ∈ ts, t ≠ "p") :
    ∀ acc : TextAcc, ts.foldl (textOnlyTagStep (docParas n) []) acc = acc := by
  induction ts with
  | nil => intro acc; rfl
  | cons t rest ih =>
    intro acc
    rw [List.foldl_cons, textOnlyTagStep_ne n t (hts t (List.mem_cons_self t rest))]
    exact ih (fun t' ht' => hts t' (List.mem_cons_of_mem t ht')) acc

theorem textOnlyTagStep_p (n : Nat) :
    textOnlyTagStep (docParas n) [] ⟨[], [], 0⟩ "p" =
      ⟨expectedEntries 0 (List.range n), (List.range n).map paraText, n⟩ := by
  unfold textOnlyTagStep
  rw [tagQuery_docParas_p]
  have h := textOnly_fold n (List.range n) [] [] [] 0
    (fun j hj => List.mem_range.mp hj) (List.nodup_range n)
    (fun j _ => List.not_mem_nil j) rfl
  simpa using h

theorem textOnly_docParas600_acc :
    textContentTags.foldl (textOnlyTagStep (docParas 600) []) ⟨[], [], 0⟩ =
      ⟨expectedEntries 0 (List.range 600), (List.range 600).map paraText, 600⟩ := by
  rw [show textContentTags = "p" :: ["h1","h2","h3","h4","h5","h6","article","section","main","blockquote","li","td","th","caption","figcaption","label","legend","summary","dt","dd"] from rfl]
  rw [List.foldl_cons, textOnlyTagStep_p 600]
  exact textOnly_foldTags_noP 600 _ (by decide) _

set_option maxRecDepth 40000 in
theorem range600_take500 : (List.range 600).take 500 = List.range 500 := by
  rw [List.take_range]
  norm_num

set_option maxRecDepth 100000 in
theorem ptwInner_p_docParas :
    ptwTextInner (docParas 600) 500 "p" ((List.range 600).map fun i => [i]) ⟨[], [], 0⟩ =
      ⟨ptwExpectedEntries 0 (List.range 500), (List.range 500).map paraText, 500⟩ := by
  have h := ptw_fold 600 500 (List.range 600) [] [] [] 0
    (fun j hj => List.mem_range.mp hj) (List.nodup_range 600)
    (fun j _ => List.not_mem_nil j) rfl (by decide)
  simp only [List.length_nil, Nat.sub_zero, range600_take500, List.nil_append,
    List.length_range, Nat.zero_add] at h
  exact h

set_option maxRecDepth 100000 in
theorem ptwRun_docParas :
    ptwTextRun (docParas 600) 500 textContentTags ⟨[], [], 0⟩ =
      ⟨ptwExpectedEntries 0 (List.range 500), (List.range 500).map paraText, 500⟩ := by
  have hlen : (500 : Nat) ≤ (ptwExpectedEntries 0 (List.range 500)).length := by
    rw [ptwExpectedEntries_length, List.length_range]
  rw [show textContentTags = "p" :: ["h1","h2","h3","h4","h5","h6","article","section","main","blockquote","li","td","th","caption","figcaption","label","legend","summary","dt","dd"] from rfl]
  rw [ptwTextRun]
  simp only [docTagQuery_docParas_p, ptwInner_p_docParas]
  rw [if_pos hlen]

theorem distillTextOnly_content (doc : Doc) :
    (distillTextOnly doc).content =
      (textContentTags.foldl (textOnlyTagStep doc ((mainContentPath doc).getD []))
        ⟨[], [], 0⟩).content := rfl

theorem ptwDistillTextOnly_content (doc : Doc) :
    (ptwDistillTextOnly doc).content =
      (ptwTextRun doc 500 textContentTags ⟨[], [], 0⟩).content := rfl

/-- C1 (code_bug): the per-mode element cap.  The `DOMDistiller` class
version does **not** enforce the 500-entry text cap — its
`if (content.length >= MAX_ELEMENTS[TEXT_ONLY]) return` sits at the end of
a `forEach` callback, where `return` only ends the current callback — so a
600-paragraph document distills to 600 entries.  The parallel Playwright
bridge implementation (`distillFromPlaywright`) does enforce it with
`break`: the same document yields exactly the first 500 entries in
document order, and every document yields at most 500 entries. -/
theorem textMode_cap_divergence :
    (distillTextOnly (docParas 600)).content = expectedEntries 0 (List.range 600) ∧
    (distillTextOnly (docParas 600)).content.length = 600 ∧
    (ptwDistillTextOnly (docParas 600)).content = ptwExpectedEntries 0 (List.range 500) ∧
    (ptwDistillTextOnly (docParas 600)).content.length = 500 ∧
    (∀ doc : Doc, (ptwDistillTextOnly doc).content.length ≤ 500) := by
  have hcontent : (distillTextOnly (docParas 600)).content =
      expectedEntries 0 (List.range 600) := by
    rw [distillTextOnly_content, mainContentPath_docParas, Option.getD_none,
      textOnly_docParas600_acc]
  have hpcontent : (ptwDistillTextOnly (docParas 600)).content =
      ptwExpectedEntries 0 (List.range 500) := by
    rw [ptwDistillTextOnly_content, ptwRun_docParas]
  refine ⟨hcontent, ?_, hpcontent, ?_, ?_⟩
  · rw [hcontent, expectedEntries_length, List.length_range]
  · rw [hpcontent, ptwExpectedEntries_length, List.length_range]
  · intro doc
    rw [ptwDistillTextOnly_content doc]
    exact ptwTextRun_le doc 500 textContentTags ⟨[], [], 0⟩ (by decide)

/-! ## C8: disarming a never-armed observer -/

/-- C8: `stopObserving` on an observer that was never armed (no stored
state) returns the empty `ChangeReport`: `mutations = []`,
`verbalFeedback = "No changes observed"`, `urlChanged = false`,
`titleChanged = false` — a plain return value, not an error. -/
theorem stopObserving_neverArmed_emptyReport (currentUrl currentTitle : String) :
    stopObserving currentUrl currentTitle none =
      { mutations := [], verbalFeedback := "No changes observed",
        urlChanged := false, newUrl := none,
        titleChanged := false, newTitle := none } := rfl

/-- Every branch of `createError` carries the original message through. -/
theorem createError_message (m : String) : (createError m).message = m := by
  unfold createError
  split
  · rfl
  split
  · rfl
  split
  · rfl
  split <;> rfl

/-- A prefix match survives extending the scanned list on the right. -/
theorem listHasPre_append (sub s r : List Char) (h : listHasPre sub s = true) :
    listHasPre sub (s ++ r) = true := by
  induction sub generalizing s with
  | nil => rfl
  | cons c cs ih =>
    cases s with
    | nil => simp [listHasPre] at h
    | cons a as =>
      simp only [listHasPre, Bool.and_eq_true] at h
      simp only [List.cons_append, listHasPre, Bool.and_eq_true]
      exact ⟨h.1, ih as h.2⟩

/-- A substring occurrence survives extending the haystack on the right. -/
theorem listContainsSub_append_left (sub l r : List Char)
    (h : listContainsSub sub l = true) :
    listContainsSub sub (l ++ r) = true := by
  induction l with
  | nil =>
    cases sub with
    | nil =>
      cases r with
      | nil => rfl
      | cons c rest => simp [listContainsSub, listHasPre]
    | cons c cs => simp [listContainsSub, listHasPre] at h
  | cons c rest ih =>
    simp only [listContainsSub, Bool.or_eq_true] at h
    simp only [List.cons_append, listContainsSub, Bool.or_eq_true]
    cases h with
    | inl hp => exact Or.inl (by simpa using listHasPre_append sub (c :: rest) r (by simpa using hp))
    | inr hc => exact Or.inr (ih hc)

/-- C10: `ActionExecutor.execute` never throws: for every action string and
parameter record the result is a plain `ActionResult` echoing the attempted
action and params, and every failure carries a structured error plus the
`Failed to <action>: <message>` feedback.  In particular an unknown action
type yields the structured `Unknown action` error, and an element index
resolving to no element (neither in the distiller map nor in the selector
map) yields a recoverable `ELEMENT_NOT_FOUND` error. -/
theorem execute_total_structured_errors :
    (∀ (env : ExecEnv) (config : ActionExecutorConfig)
       (action : String) (p : ActionParamsRec),
       (executeModel env config action p).action = action ∧
       (executeModel env config action p).params = p ∧
       ((executeModel env config action p).success = false →
         ∃ e, (executeModel env config action p).error = some e ∧
           (executeModel env config action p).verbalFeedback =
             "Failed to " ++ action ++ ": " ++ e.message)) ∧
    (∀ (env : ExecEnv) (config : ActionExecutorConfig)
       (action : String) (p : ActionParamsRec), action ∉ knownActions →
       (executeModel env config action p).success = false ∧
       (executeModel env config action p).error =
         some (createError ("Unknown action: " ++ action))) ∧
    (∀ (env : ExecEnv) (config : ActionExecutorConfig)
       (p : ActionParamsRec) (i : Nat), p.index = some i →
       env.distillerGet i = none → env.selectorGet i = none →
       (executeModel env config "click" p).success = false ∧
       (executeModel env config "click" p).error =
         some { code := "ELEMENT_NOT_FOUND",
                message := "Element not found at index " ++ toString i,
                recoverable := true,
                suggestion :=
                  some "Try refreshing the page or waiting for the element" }) := by
  refine ⟨?_, ?_, ?_⟩
  · intro env config action p
    cases h : executeAttempt env config action p (beforeSnap env p) with
    | error msg =>
      refine ⟨by simp [executeModel, h], by simp [executeModel, h], ?_⟩
      intro _
      refine ⟨createError msg, by simp [executeModel, h], ?_⟩
      simp [executeModel, h, generateFeedbackFailure, createError_message]
    | ok pr =>
      obtain ⟨after, fb⟩ := pr
      refine ⟨by simp [executeModel, h], by simp [executeModel, h], ?_⟩
      intro hfalse
      simp [executeModel, h] at hfalse
  · intro env config action p hmem
    have hc : ∀ s ∈ knownActions, (action == s) = false := fun s hs =>
      beq_eq_false_iff_ne.mpr (fun he => hmem (he ▸ hs))
    have hact : executeAction env config action p =
        .error ("Unknown action: " ++ action) := by
      unfold executeAction
      rw [hc "click" (by decide), hc "doubleClick" (by decide),
          hc "type" (by decide), hc "clear" (by decide),
          hc "select" (by decide), hc "check" (by decide),
          hc "uncheck" (by decide), hc "hover" (by decide),
          hc "scroll" (by decide), hc "scrollToElement" (by decide),
          hc "focus" (by decide), hc "press" (by decide),
          hc "wait" (by decide), hc "waitForElement" (by decide),
          hc "navigate" (by decide), hc "goBack" (by decide),
          hc "goForward" (by decide), hc "refresh" (by decide)]
      rfl
    have hatt : executeAttempt env config action p (beforeSnap env p) =
        .error ("Unknown action: " ++ action) := by
      unfold executeAttempt
      rw [hact]
    constructor <;> simp [executeModel, hatt]
  · intro env config p i hidx hd hs
    have hge : execGetElement env p.index =
        .error ("Element not found at index " ++ toString i) := by
      unfold execGetElement
      rw [hidx]
      simp [Option.bind, hd, hs, optNatStr]
    have hact : executeAction env config "click" p =
        .error ("Element not found at index " ++ toString i) := by
      unfold executeAction
      rw [hge]
      rfl
    have hatt : executeAttempt env config "click" p (beforeSnap env p) =
        .error ("Element not found at index " ++ toString i) := by
      unfold executeAttempt
      rw [hact]
    have hmsg : strContains ("Element not found at index " ++ toString i)
        "not found" = true := by
      have h1 : listContainsSub "not found".data
          "Element not found at index ".data = true := by decide
      have h2 := listContainsSub_append_left "not found".data
          "Element not found at index ".data (toString i).data h1
      simpa [strContains, String.data_append] using h2
    have hcreate : createError ("Element not found at index " ++ toString i) =
        { code := "ELEMENT_NOT_FOUND",
          message := "Element not found at index " ++ toString i,
          recoverable := true,
          suggestion :=
            some "Try refreshing the page or waiting for the element" } := by
      unfold createError
      rw [hmsg]
      rfl
    constructor <;> simp [executeModel, hatt, hcreate]

/-- Witness for C10 at concrete inputs: the unknown action `frobnicate`, a
`click` whose index 3 resolves to no element, and the structured-feedback
implication discharged at that failing `click`. -/
theorem execute_total_structured_errors_witness :
    ((executeModel demoExecEnv ⟨5000, 50, 300⟩ "frobnicate" ⟨none, none, none,
        false, none, none, none, none, none, none, none, none, none, none,
        none⟩).success = false ∧
     (executeModel demoExecEnv ⟨5000, 50, 300⟩ "frobnicate" ⟨none, none, none,
        false, none, none, none, none, none, none, none, none, none, none,
        none⟩).error = some (createError ("Unknown action: " ++ "frobnicate"))) ∧
    ((executeModel demoExecEnv ⟨5000, 50, 300⟩ "click" ⟨some 3, none, none,
        false, none, none, none, none, none, none, none, none, none, none,
        none⟩).success = false ∧
     (executeModel demoExecEnv ⟨5000, 50, 300⟩ "click" ⟨some 3, none, none,
        false, none, none, none, none, none, none, none, none, none, none,
        none⟩).error =
       some { code := "ELEMENT_NOT_FOUND",
              message := "Element not found at index " ++ toString 3,
              recoverable := true,
              suggestion :=
                some "Try refreshing the page or waiting for the element" }) ∧
    (∃ e, (executeModel demoExecEnv ⟨5000, 50, 300⟩ "click" ⟨some 3, none, none,
        false, none, none, none, none, none, none, none, none, none, none,
        none⟩).error = some e ∧
      (executeModel demoExecEnv ⟨5000, 50, 300⟩ "click" ⟨some 3, none, none,
        false, none, none, none, none, none, none, none, none, none, none,
        none⟩).verbalFeedback = "Failed to " ++ "click" ++ ": " ++ e.message) :=
  ⟨execute_total_structured_errors.2.1 demoExecEnv ⟨5000, 50, 300⟩ "frobnicate"
      ⟨none, none, none, false, none, none, none, none, none, none, none, none,
       none, none, none⟩ (by decide),
   execute_total_structured_errors.2.2 demoExecEnv ⟨5000, 50, 300⟩
      ⟨some 3, none, none, false, none, none, none, none, none, none, none,
       none, none, none, none⟩ 3 rfl rfl rfl,
   (execute_total_structured_errors.1 demoExecEnv ⟨5000, 50, 300⟩ "click"
      ⟨some 3, none, none, false, none, none, none, none, none, none, none,
       none, none, none, none⟩).2.2 (by decide)⟩

/-- Every member of `enumFrom` pairs an index with a list member. -/
theorem mem_enumFrom_snd {α : Type _} :
    ∀ (l : List α) (i : Nat) (x : Nat × α), x ∈ l.enumFrom i → x.2 ∈ l
  | [], _, _, h => by simp [List.enumFrom] at h
  | a :: rest, i, x, h => by
    rcases List.mem_cons.mp h with rfl | h
    · exact List.mem_cons_self a rest
    · exact List.mem_cons_of_mem a (mem_enumFrom_snd rest (i + 1) x h)

/-- C7 counterexample: the Playwright bridge's ALL_FIELDS path applies no
role filter.  On a document whose only candidate is a visible `div` with
`role="presentation"` — a role in neither the interactive nor the landmark
set — the bridge's view contains that element, while the class
implementation (which does filter) excludes it. -/
theorem allFields_roleFilter_counterexample :
    ((ptwDistillAllFields cRoleDoc).elements.map (fun e => e.tag)) = ["div"] ∧
    ((elemAt? cRoleDoc [0]).bind (fun d => getAttr d "role")) = some "presentation" ∧
    "presentation" ∉ interactiveRoles ∧ "presentation" ∉ landmarkRoles ∧
    (distillAllFields cRoleDoc).elements = [] := by
  refine ⟨?_, ?_, ?_, ?_, ?_⟩ <;> decide

/-- C7 (amended): in `DOMDistiller.distillAllFields`, every element of the
resulting view that carries a `role` field has a recognized interactive or
landmark role (elements with `role=""` are kept by JS truthiness but carry
no `role` field; the Playwright bridge applies no such filter at all, see
the counterexample). -/
theorem allFields_roleFilter_amended (doc : Doc) (el : InteractiveElement) (r : String)
    (hmem : el ∈ (distillAllFields doc).elements) (hrole : el.role = some r) :
    r ∈ interactiveRoles ∨ r ∈ landmarkRoles := by
  unfold distillAllFields at hmem
  simp only [List.mem_insertionSort, List.mem_map] at hmem
  obtain ⟨x, hx, rfl⟩ := hmem
  have hkept : x.2 ∈ keptAllFields doc := mem_enumFrom_snd _ 0 x hx
  unfold keptAllFields at hkept
  rw [List.mem_filter] at hkept
  have hpass := hkept.2
  simp only [Bool.and_eq_true] at hpass
  have hrolePass : allFieldsRolePass (elemD doc x.2) = true := hpass.1.2
  simp only [buildInteractiveElement] at hrole
  unfold allFieldsRolePass at hrolePass
  cases hattr : getAttr (elemD doc x.2) "role" with
  | none => rw [hattr] at hrole; simp [jsOptTruthy] at hrole
  | some s =>
    rw [hattr] at hrole hrolePass
    simp only [jsOptTruthy] at hrole
    by_cases hs : (s == "") = true
    · rw [if_pos hs] at hrole; simp at hrole
    · rw [if_neg hs] at hrole
      have hsr : s = r := by simpa using hrole
      subst hsr
      have hrolePass3 : (s == "") = true ∨ interactiveRoles.contains s = true ∨
          landmarkRoles.contains s = true := by
        simpa [Bool.or_eq_true, or_assoc] using hrolePass
      rcases hrolePass3 with h | h | h
      · exact absurd h hs
      · exact Or.inl (by simpa [List.contains] using List.elem_iff.mp h)
      · exact Or.inr (by simpa [List.contains] using List.elem_iff.mp h)

/-- Witness for the amended C7 theorem at a concrete document whose view
holds one element with role `button`. -/
theorem allFields_roleFilter_amended_witness :
    "button" ∈ interactiveRoles ∨ "button" ∈ landmarkRoles :=
  allFields_roleFilter_amended wRoleDoc
    ((distillAllFields wRoleDoc).elements.getD 0
      ⟨0, "", "", "", "", false, false, none, none, "", "", none, none, none⟩)
    "button" (by decide) (by decide)

end WebAgent
